import Mathlib

/-!
# SDRplay API surface (sdrtrunk): update-dispatch protocol

Shallow embedding of the SDRplay API headers shipped with sdrtrunk
(`sdrplay_api.h` v3.08, `sdrplay_api_tuner.h`, `sdrplay_api_dev.h`,
`sdrplay_api_callback.h`, the per-variant headers) together with a model of the
update dispatcher, parameter store and encoder that the headers only declare.

Enumerations are inductive types with the numeric value of each enumerator given
by a `val` function copied from the header.  Machine integers are `Nat`/`Int`;
`float`/`double` members are carried as rationals, no claim computes with them.
-/

namespace Sdrplay

/-! ## sdrplay_api.h : result codes -/

/-- Result codes, `sdrplay_api_ErrT` (sdrplay_api.h lines 40-67). -/
inductive sdrplay_api_ErrT
  | Success
  | Fail
  | InvalidParam
  | OutOfRange
  | GainUpdateError
  | RfUpdateError
  | FsUpdateError
  | HwError
  | AliasingError
  | AlreadyInitialised
  | NotInitialised
  | NotEnabled
  | HwVerError
  | OutOfMemError
  | ServiceNotResponding
  | StartPending
  | StopPending
  | InvalidMode
  | FailedVerification1
  | FailedVerification2
  | FailedVerification3
  | FailedVerification4
  | FailedVerification5
  | FailedVerification6
  | InvalidServiceVersion
  deriving DecidableEq, Repr

/-- Numeric value of each result code as written in the header. -/
def sdrplay_api_ErrT.val : sdrplay_api_ErrT → Nat
  | .Success               => 0
  | .Fail                  => 1
  | .InvalidParam          => 2
  | .OutOfRange            => 3
  | .GainUpdateError       => 4
  | .RfUpdateError         => 5
  | .FsUpdateError         => 6
  | .HwError               => 7
  | .AliasingError         => 8
  | .AlreadyInitialised    => 9
  | .NotInitialised        => 10
  | .NotEnabled            => 11
  | .HwVerError            => 12
  | .OutOfMemError         => 13
  | .ServiceNotResponding  => 14
  | .StartPending          => 15
  | .StopPending           => 16
  | .InvalidMode           => 17
  | .FailedVerification1   => 18
  | .FailedVerification2   => 19
  | .FailedVerification3   => 20
  | .FailedVerification4   => 21
  | .FailedVerification5   => 22
  | .FailedVerification6   => 23
  | .InvalidServiceVersion => 24

/-- The result codes in the order the specification lists them (section 6):
Success, Fail, InvalidParam, OutOfRange, GainUpdateError, RfUpdateError,
FsUpdateError, HwError, AliasingError, AlreadyInitialised, NotInitialised,
NotEnabled, HwVerError, OutOfMemError, ServiceNotResponding, StartPending,
StopPending, InvalidMode, FailedVerification 1..6, InvalidServiceVersion. -/
def specResultCodes : List sdrplay_api_ErrT :=
  [.Success, .Fail, .InvalidParam, .OutOfRange, .GainUpdateError, .RfUpdateError,
   .FsUpdateError, .HwError, .AliasingError, .AlreadyInitialised, .NotInitialised,
   .NotEnabled, .HwVerError, .OutOfMemError, .ServiceNotResponding, .StartPending,
   .StopPending, .InvalidMode, .FailedVerification1, .FailedVerification2,
   .FailedVerification3, .FailedVerification4, .FailedVerification5,
   .FailedVerification6, .InvalidServiceVersion]

/-! ## sdrplay_api.h : reasons for update -/

/-- The comment-delimited sections of the two reason enumerations. `unsectioned`
is the `None` enumerator that precedes the first section comment. -/
inductive UpdateSection
  | unsectioned
  | masterOnly
  | masterAndSlave
  deriving DecidableEq, Repr

/-- Primary reason domain, `sdrplay_api_ReasonForUpdateT` (sdrplay_api.h lines 69-115). -/
inductive sdrplay_api_ReasonForUpdateT
  | Update_None
  | Update_Dev_Fs
  | Update_Dev_Ppm
  | Update_Dev_SyncUpdate
  | Update_Dev_ResetFlags
  | Update_Rsp1a_BiasTControl
  | Update_Rsp1a_RfNotchControl
  | Update_Rsp1a_RfDabNotchControl
  | Update_Rsp2_BiasTControl
  | Update_Rsp2_AmPortSelect
  | Update_Rsp2_AntennaControl
  | Update_Rsp2_RfNotchControl
  | Update_Rsp2_ExtRefControl
  | Update_RspDuo_ExtRefControl
  | Update_Master_Spare_1
  | Update_Master_Spare_2
  | Update_Tuner_Gr
  | Update_Tuner_GrLimits
  | Update_Tuner_Frf
  | Update_Tuner_BwType
  | Update_Tuner_IfType
  | Update_Tuner_DcOffset
  | Update_Tuner_LoMode
  | Update_Ctrl_DCoffsetIQimbalance
  | Update_Ctrl_Decimation
  | Update_Ctrl_Agc
  | Update_Ctrl_AdsbMode
  | Update_Ctrl_OverloadMsgAck
  | Update_RspDuo_BiasTControl
  | Update_RspDuo_AmPortSelect
  | Update_RspDuo_Tuner1AmNotchControl
  | Update_RspDuo_RfNotchControl
  | Update_RspDuo_RfDabNotchControl
  deriving DecidableEq, Repr

/-- Numeric value of each primary reason as written in the header. -/
def sdrplay_api_ReasonForUpdateT.val : sdrplay_api_ReasonForUpdateT → Nat
  | .Update_None                        => 0x00000000
  | .Update_Dev_Fs                      => 0x00000001
  | .Update_Dev_Ppm                     => 0x00000002
  | .Update_Dev_SyncUpdate              => 0x00000004
  | .Update_Dev_ResetFlags              => 0x00000008
  | .Update_Rsp1a_BiasTControl          => 0x00000010
  | .Update_Rsp1a_RfNotchControl        => 0x00000020
  | .Update_Rsp1a_RfDabNotchControl     => 0x00000040
  | .Update_Rsp2_BiasTControl           => 0x00000080
  | .Update_Rsp2_AmPortSelect           => 0x00000100
  | .Update_Rsp2_AntennaControl         => 0x00000200
  | .Update_Rsp2_RfNotchControl         => 0x00000400
  | .Update_Rsp2_ExtRefControl          => 0x00000800
  | .Update_RspDuo_ExtRefControl        => 0x00001000
  | .Update_Master_Spare_1              => 0x00002000
  | .Update_Master_Spare_2              => 0x00004000
  | .Update_Tuner_Gr                    => 0x00008000
  | .Update_Tuner_GrLimits              => 0x00010000
  | .Update_Tuner_Frf                   => 0x00020000
  | .Update_Tuner_BwType                => 0x00040000
  | .Update_Tuner_IfType                => 0x00080000
  | .Update_Tuner_DcOffset              => 0x00100000
  | .Update_Tuner_LoMode                => 0x00200000
  | .Update_Ctrl_DCoffsetIQimbalance    => 0x00400000
  | .Update_Ctrl_Decimation             => 0x00800000
  | .Update_Ctrl_Agc                    => 0x01000000
  | .Update_Ctrl_AdsbMode               => 0x02000000
  | .Update_Ctrl_OverloadMsgAck         => 0x04000000
  | .Update_RspDuo_BiasTControl         => 0x08000000
  | .Update_RspDuo_AmPortSelect         => 0x10000000
  | .Update_RspDuo_Tuner1AmNotchControl => 0x20000000
  | .Update_RspDuo_RfNotchControl       => 0x40000000
  | .Update_RspDuo_RfDabNotchControl    => 0x80000000

/-- Section of the header in which each primary reason is defined: the
enumerators under `// Reasons for master only mode` (lines 73-92) and those under
`// Reasons for master and slave mode` (lines 94-114). -/
def sdrplay_api_ReasonForUpdateT.sect : sdrplay_api_ReasonForUpdateT → UpdateSection
  | .Update_None                        => .unsectioned
  | .Update_Dev_Fs                      => .masterOnly
  | .Update_Dev_Ppm                     => .masterOnly
  | .Update_Dev_SyncUpdate              => .masterOnly
  | .Update_Dev_ResetFlags              => .masterOnly
  | .Update_Rsp1a_BiasTControl          => .masterOnly
  | .Update_Rsp1a_RfNotchControl        => .masterOnly
  | .Update_Rsp1a_RfDabNotchControl     => .masterOnly
  | .Update_Rsp2_BiasTControl           => .masterOnly
  | .Update_Rsp2_AmPortSelect           => .masterOnly
  | .Update_Rsp2_AntennaControl         => .masterOnly
  | .Update_Rsp2_RfNotchControl         => .masterOnly
  | .Update_Rsp2_ExtRefControl          => .masterOnly
  | .Update_RspDuo_ExtRefControl        => .masterOnly
  | .Update_Master_Spare_1              => .masterOnly
  | .Update_Master_Spare_2              => .masterOnly
  | .Update_Tuner_Gr                    => .masterAndSlave
  | .Update_Tuner_GrLimits              => .masterAndSlave
  | .Update_Tuner_Frf                   => .masterAndSlave
  | .Update_Tuner_BwType                => .masterAndSlave
  | .Update_Tuner_IfType                => .masterAndSlave
  | .Update_Tuner_DcOffset              => .masterAndSlave
  | .Update_Tuner_LoMode                => .masterAndSlave
  | .Update_Ctrl_DCoffsetIQimbalance    => .masterAndSlave
  | .Update_Ctrl_Decimation             => .masterAndSlave
  | .Update_Ctrl_Agc                    => .masterAndSlave
  | .Update_Ctrl_AdsbMode               => .masterAndSlave
  | .Update_Ctrl_OverloadMsgAck         => .masterAndSlave
  | .Update_RspDuo_BiasTControl         => .masterAndSlave
  | .Update_RspDuo_AmPortSelect         => .masterAndSlave
  | .Update_RspDuo_Tuner1AmNotchControl => .masterAndSlave
  | .Update_RspDuo_RfNotchControl       => .masterAndSlave
  | .Update_RspDuo_RfDabNotchControl    => .masterAndSlave

/-- Every enumerator of the primary reason domain, in header order. -/
def sdrplay_api_ReasonForUpdateT.all : List sdrplay_api_ReasonForUpdateT :=
  [.Update_None, .Update_Dev_Fs, .Update_Dev_Ppm, .Update_Dev_SyncUpdate,
   .Update_Dev_ResetFlags, .Update_Rsp1a_BiasTControl, .Update_Rsp1a_RfNotchControl,
   .Update_Rsp1a_RfDabNotchControl, .Update_Rsp2_BiasTControl, .Update_Rsp2_AmPortSelect,
   .Update_Rsp2_AntennaControl, .Update_Rsp2_RfNotchControl, .Update_Rsp2_ExtRefControl,
   .Update_RspDuo_ExtRefControl, .Update_Master_Spare_1, .Update_Master_Spare_2,
   .Update_Tuner_Gr, .Update_Tuner_GrLimits, .Update_Tuner_Frf, .Update_Tuner_BwType,
   .Update_Tuner_IfType, .Update_Tuner_DcOffset, .Update_Tuner_LoMode,
   .Update_Ctrl_DCoffsetIQimbalance, .Update_Ctrl_Decimation, .Update_Ctrl_Agc,
   .Update_Ctrl_AdsbMode, .Update_Ctrl_OverloadMsgAck, .Update_RspDuo_BiasTControl,
   .Update_RspDuo_AmPortSelect, .Update_RspDuo_Tuner1AmNotchControl,
   .Update_RspDuo_RfNotchControl, .Update_RspDuo_RfDabNotchControl]

/-- Extension-1 reason domain, `sdrplay_api_ReasonForUpdateExtension1T`
(sdrplay_api.h lines 117-130). -/
inductive sdrplay_api_ReasonForUpdateExtension1T
  | Update_Ext1_None
  | Update_RspDx_HdrEnable
  | Update_RspDx_BiasTControl
  | Update_RspDx_AntennaControl
  | Update_RspDx_RfNotchControl
  | Update_RspDx_RfDabNotchControl
  | Update_RspDx_HdrBw
  deriving DecidableEq, Repr

/-- Numeric value of each extension-1 reason as written in the header. -/
def sdrplay_api_ReasonForUpdateExtension1T.val : sdrplay_api_ReasonForUpdateExtension1T → Nat
  | .Update_Ext1_None               => 0x00000000
  | .Update_RspDx_HdrEnable         => 0x00000001
  | .Update_RspDx_BiasTControl      => 0x00000002
  | .Update_RspDx_AntennaControl    => 0x00000004
  | .Update_RspDx_RfNotchControl    => 0x00000008
  | .Update_RspDx_RfDabNotchControl => 0x00000010
  | .Update_RspDx_HdrBw             => 0x00000020

/-- Section of each extension-1 reason: all six are listed under
`// Reasons for master only mode`; the master-and-slave section is empty. -/
def sdrplay_api_ReasonForUpdateExtension1T.sect :
    sdrplay_api_ReasonForUpdateExtension1T → UpdateSection
  | .Update_Ext1_None               => .unsectioned
  | .Update_RspDx_HdrEnable         => .masterOnly
  | .Update_RspDx_BiasTControl      => .masterOnly
  | .Update_RspDx_AntennaControl    => .masterOnly
  | .Update_RspDx_RfNotchControl    => .masterOnly
  | .Update_RspDx_RfDabNotchControl => .masterOnly
  | .Update_RspDx_HdrBw             => .masterOnly

/-- Every enumerator of the extension-1 reason domain, in header order. -/
def sdrplay_api_ReasonForUpdateExtension1T.all :
    List sdrplay_api_ReasonForUpdateExtension1T :=
  [.Update_Ext1_None, .Update_RspDx_HdrEnable, .Update_RspDx_BiasTControl,
   .Update_RspDx_AntennaControl, .Update_RspDx_RfNotchControl,
   .Update_RspDx_RfDabNotchControl, .Update_RspDx_HdrBw]

/-- Bitwise union of the values of the enumerators satisfying a predicate. -/
def unionWhere {α : Type} (all : List α) (val : α → Nat) (p : α → Bool) : Nat :=
  all.foldl (fun acc c => if p c then acc ||| val c else acc) 0

/-- Union of all primary master-only reasons (Dev_Fs .. Master_Spare_2). -/
def masterOnlyMask : Nat :=
  unionWhere sdrplay_api_ReasonForUpdateT.all sdrplay_api_ReasonForUpdateT.val
    (fun c => decide (c.sect = .masterOnly))

/-- Union of all primary master-and-slave reasons (Tuner_Gr .. RspDuo_RfDabNotchControl). -/
def masterAndSlaveMask : Nat :=
  unionWhere sdrplay_api_ReasonForUpdateT.all sdrplay_api_ReasonForUpdateT.val
    (fun c => decide (c.sect = .masterAndSlave))

/-- A reason-for-update set: the pair of bit-sets passed to `sdrplay_api_Update`
as `reasonForUpdate` and `reasonForUpdateExt1` (sdrplay_api.h line 188). -/
structure ReasonSet where
  primary : Nat
  ext1 : Nat
  deriving DecidableEq, Repr

/-- The empty reason set `(sdrplay_api_Update_None, sdrplay_api_Update_Ext1_None)`. -/
def ReasonSet.none : ReasonSet :=
  ⟨sdrplay_api_ReasonForUpdateT.Update_None.val,
   sdrplay_api_ReasonForUpdateExtension1T.Update_Ext1_None.val⟩

/-- Bitwise union of two reason sets, each domain on its own (the C `|` on each
argument of `sdrplay_api_Update`). -/
def ReasonSet.union (a b : ReasonSet) : ReasonSet :=
  ⟨a.primary ||| b.primary, a.ext1 ||| b.ext1⟩

/-- A reason set contains a master-only bit when its primary word meets an enumerator
of the master-only section or its extension-1 word has any bit set: the extension-1
enumeration defines reasons under `// Reasons for master only mode` only, its
master-and-slave section is empty. -/
def ReasonSet.containsMasterOnly (r : ReasonSet) : Bool :=
  decide (r.primary &&& masterOnlyMask ≠ 0) || decide (r.ext1 ≠ 0)

/-- Bit `i` of a reason set in the chosen domain (`inExt1 = false`: the primary word,
`inExt1 = true`: the extension-1 word). -/
def ReasonSet.testBit (r : ReasonSet) (inExt1 : Bool) (i : Nat) : Bool :=
  if inExt1 then r.ext1.testBit i else r.primary.testBit i

/-- Membership of a named primary reason in a reason word. -/
def hasReason (r : Nat) (c : sdrplay_api_ReasonForUpdateT) : Bool :=
  decide (r &&& c.val ≠ 0)

/-! ## sdrplay_api_tuner.h -/

/-- The constant `MAX_BB_GR` (sdrplay_api_tuner.h line 4). -/
def MAX_BB_GR : Int := 59

/-- Bandwidth enumeration `sdrplay_api_Bw_MHzT`. -/
inductive sdrplay_api_Bw_MHzT
  | BW_Undefined | BW_0_200 | BW_0_300 | BW_0_600 | BW_1_536
  | BW_5_000 | BW_6_000 | BW_7_000 | BW_8_000
  deriving DecidableEq, Repr

/-- Numeric value of each bandwidth enumerator. -/
def sdrplay_api_Bw_MHzT.val : sdrplay_api_Bw_MHzT → Int
  | .BW_Undefined => 0
  | .BW_0_200 => 200
  | .BW_0_300 => 300
  | .BW_0_600 => 600
  | .BW_1_536 => 1536
  | .BW_5_000 => 5000
  | .BW_6_000 => 6000
  | .BW_7_000 => 7000
  | .BW_8_000 => 8000

/-- IF enumeration `sdrplay_api_If_kHzT`. -/
inductive sdrplay_api_If_kHzT
  | IF_Undefined | IF_Zero | IF_0_450 | IF_1_620 | IF_2_048
  deriving DecidableEq, Repr

/-- Numeric value of each IF enumerator. -/
def sdrplay_api_If_kHzT.val : sdrplay_api_If_kHzT → Int
  | .IF_Undefined => -1
  | .IF_Zero => 0
  | .IF_0_450 => 450
  | .IF_1_620 => 1620
  | .IF_2_048 => 2048

/-- LO mode enumeration `sdrplay_api_LoModeT`. -/
inductive sdrplay_api_LoModeT
  | LO_Undefined | LO_Auto | LO_120MHz | LO_144MHz | LO_168MHz
  deriving DecidableEq, Repr

/-- Numeric value of each LO mode enumerator. -/
def sdrplay_api_LoModeT.val : sdrplay_api_LoModeT → Int
  | .LO_Undefined => 0
  | .LO_Auto => 1
  | .LO_120MHz => 2
  | .LO_144MHz => 3
  | .LO_168MHz => 4

/-- Minimum gain reduction mode `sdrplay_api_MinGainReductionT`
(sdrplay_api_tuner.h lines 38-42). -/
inductive sdrplay_api_MinGainReductionT
  | EXTENDED_MIN_GR
  | NORMAL_MIN_GR
  deriving DecidableEq, Repr

/-- Numeric value of the mode, which is the floor of the gain reduction in dB. -/
def sdrplay_api_MinGainReductionT.val : sdrplay_api_MinGainReductionT → Int
  | .EXTENDED_MIN_GR => 0
  | .NORMAL_MIN_GR => 20

/-- Tuner selection `sdrplay_api_TunerSelectT`. -/
inductive sdrplay_api_TunerSelectT
  | Tuner_Neither | Tuner_A | Tuner_B | Tuner_Both
  deriving DecidableEq, Repr

/-- Numeric value of each tuner selection. -/
def sdrplay_api_TunerSelectT.val : sdrplay_api_TunerSelectT → Nat
  | .Tuner_Neither => 0
  | .Tuner_A => 1
  | .Tuner_B => 2
  | .Tuner_Both => 3

/-- Observed gain values `sdrplay_api_GainValuesT` (three C floats). -/
structure sdrplay_api_GainValuesT where
  curr : ℚ
  max : ℚ
  min : ℚ
  deriving DecidableEq, Repr

/-- Gain block `sdrplay_api_GainT` (sdrplay_api_tuner.h lines 60-67). -/
structure sdrplay_api_GainT where
  gRdB : Int
  LNAstate : Nat
  syncUpdate : Nat
  minGr : sdrplay_api_MinGainReductionT
  gainVals : sdrplay_api_GainValuesT
  deriving DecidableEq, Repr

/-- RF frequency block `sdrplay_api_RfFreqT`. -/
structure sdrplay_api_RfFreqT where
  rfHz : ℚ
  syncUpdate : Nat
  deriving DecidableEq, Repr

/-- Tuner DC offset block `sdrplay_api_DcOffsetTunerT`. -/
structure sdrplay_api_DcOffsetTunerT where
  dcCal : Nat
  speedUp : Nat
  trackTime : Int
  refreshRateTime : Int
  deriving DecidableEq, Repr

/-- Tuner parameters `sdrplay_api_TunerParamsT`. -/
structure sdrplay_api_TunerParamsT where
  bwType : sdrplay_api_Bw_MHzT
  ifType : sdrplay_api_If_kHzT
  loMode : sdrplay_api_LoModeT
  gain : sdrplay_api_GainT
  rfFreq : sdrplay_api_RfFreqT
  dcOffsetTuner : sdrplay_api_DcOffsetTunerT
  deriving DecidableEq, Repr

/-! ## sdrplay_api_control.h -/

/-- AGC control enumeration `sdrplay_api_AgcControlT` (values 0..4 in order). -/
inductive sdrplay_api_AgcControlT
  | AGC_DISABLE | AGC_100HZ | AGC_50HZ | AGC_5HZ | AGC_CTRL_EN
  deriving DecidableEq, Repr

/-- ADS-B mode enumeration `sdrplay_api_AdsbModeT` (values 0..3 in order). -/
inductive sdrplay_api_AdsbModeT
  | ADSB_DECIMATION
  | ADSB_NO_DECIMATION_LOWPASS
  | ADSB_NO_DECIMATION_BANDPASS_2MHZ
  | ADSB_NO_DECIMATION_BANDPASS_3MHZ
  deriving DecidableEq, Repr

/-- DC offset / IQ imbalance block `sdrplay_api_DcOffsetT`. -/
structure sdrplay_api_DcOffsetT where
  DCenable : Nat
  IQenable : Nat
  deriving DecidableEq, Repr

/-- Decimation block `sdrplay_api_DecimationT`. -/
structure sdrplay_api_DecimationT where
  enable : Nat
  decimationFactor : Nat
  wideBandSignal : Nat
  deriving DecidableEq, Repr

/-- AGC block `sdrplay_api_AgcT`. -/
structure sdrplay_api_AgcT where
  enable : sdrplay_api_AgcControlT
  setPoint_dBfs : Int
  attack_ms : Nat
  decay_ms : Nat
  decay_delay_ms : Nat
  decay_threshold_dB : Nat
  syncUpdate : Int
  deriving DecidableEq, Repr

/-- Control parameters `sdrplay_api_ControlParamsT`. -/
structure sdrplay_api_ControlParamsT where
  dcOffset : sdrplay_api_DcOffsetT
  decimation : sdrplay_api_DecimationT
  agc : sdrplay_api_AgcT
  adsbMode : sdrplay_api_AdsbModeT
  deriving DecidableEq, Repr

/-! ## Per-variant headers -/

/-- RSP1A device-level block `sdrplay_api_Rsp1aParamsT`. -/
structure sdrplay_api_Rsp1aParamsT where
  rfNotchEnable : Nat
  rfDabNotchEnable : Nat
  deriving DecidableEq, Repr

/-- RSP1A per-channel block `sdrplay_api_Rsp1aTunerParamsT`. -/
structure sdrplay_api_Rsp1aTunerParamsT where
  biasTEnable : Nat
  deriving DecidableEq, Repr

/-- RSP2 antenna selection `sdrplay_api_Rsp2_AntennaSelectT` (A = 5, B = 6). -/
inductive sdrplay_api_Rsp2_AntennaSelectT
  | Rsp2_ANTENNA_A | Rsp2_ANTENNA_B
  deriving DecidableEq, Repr

/-- RSP2 AM port selection `sdrplay_api_Rsp2_AmPortSelectT` (port 1 = 1, port 2 = 0). -/
inductive sdrplay_api_Rsp2_AmPortSelectT
  | Rsp2_AMPORT_1 | Rsp2_AMPORT_2
  deriving DecidableEq, Repr

/-- RSP2 device-level block `sdrplay_api_Rsp2ParamsT`. -/
structure sdrplay_api_Rsp2ParamsT where
  extRefOutputEn : Nat
  deriving DecidableEq, Repr

/-- RSP2 per-channel block `sdrplay_api_Rsp2TunerParamsT`. -/
structure sdrplay_api_Rsp2TunerParamsT where
  biasTEnable : Nat
  amPortSel : sdrplay_api_Rsp2_AmPortSelectT
  antennaSel : sdrplay_api_Rsp2_AntennaSelectT
  rfNotchEnable : Nat
  deriving DecidableEq, Repr

/-- Duo mode `sdrplay_api_RspDuoModeT` (sdrplay_api_rspDuo.h). -/
inductive sdrplay_api_RspDuoModeT
  | RspDuoMode_Unknown
  | RspDuoMode_Single_Tuner
  | RspDuoMode_Dual_Tuner
  | RspDuoMode_Master
  | RspDuoMode_Slave
  deriving DecidableEq, Repr

/-- Numeric value of each duo mode. -/
def sdrplay_api_RspDuoModeT.val : sdrplay_api_RspDuoModeT → Nat
  | .RspDuoMode_Unknown => 0
  | .RspDuoMode_Single_Tuner => 1
  | .RspDuoMode_Dual_Tuner => 2
  | .RspDuoMode_Master => 4
  | .RspDuoMode_Slave => 8

/-- RSPduo AM port selection `sdrplay_api_RspDuo_AmPortSelectT` (port 1 = 1, port 2 = 0). -/
inductive sdrplay_api_RspDuo_AmPortSelectT
  | RspDuo_AMPORT_1 | RspDuo_AMPORT_2
  deriving DecidableEq, Repr

/-- RSPduo device-level block `sdrplay_api_RspDuoParamsT`. -/
structure sdrplay_api_RspDuoParamsT where
  extRefOutputEn : Int
  deriving DecidableEq, Repr

/-- Slave reset flags `sdrplay_api_RspDuo_ResetSlaveFlagsT`. -/
structure sdrplay_api_RspDuo_ResetSlaveFlagsT where
  resetGainUpdate : Nat
  resetRfUpdate : Nat
  deriving DecidableEq, Repr

/-- RSPduo per-channel block `sdrplay_api_RspDuoTunerParamsT`. -/
structure sdrplay_api_RspDuoTunerParamsT where
  biasTEnable : Nat
  tuner1AmPortSel : sdrplay_api_RspDuo_AmPortSelectT
  tuner1AmNotchEnable : Nat
  rfNotchEnable : Nat
  rfDabNotchEnable : Nat
  resetSlaveFlags : sdrplay_api_RspDuo_ResetSlaveFlagsT
  deriving DecidableEq, Repr

/-- RSPdx antenna selection `sdrplay_api_RspDx_AntennaSelectT` (values 0..2). -/
inductive sdrplay_api_RspDx_AntennaSelectT
  | RspDx_ANTENNA_A | RspDx_ANTENNA_B | RspDx_ANTENNA_C
  deriving DecidableEq, Repr

/-- RSPdx HDR bandwidth `sdrplay_api_RspDx_HdrModeBwT` (values 0..3). -/
inductive sdrplay_api_RspDx_HdrModeBwT
  | RspDx_HDRMODE_BW_0_200 | RspDx_HDRMODE_BW_0_500
  | RspDx_HDRMODE_BW_1_200 | RspDx_HDRMODE_BW_1_700
  deriving DecidableEq, Repr

/-- RSPdx device-level block `sdrplay_api_RspDxParamsT`. -/
structure sdrplay_api_RspDxParamsT where
  hdrEnable : Nat
  biasTEnable : Nat
  antennaSel : sdrplay_api_RspDx_AntennaSelectT
  rfNotchEnable : Nat
  rfDabNotchEnable : Nat
  deriving DecidableEq, Repr

/-- RSPdx per-channel block `sdrplay_api_RspDxTunerParamsT`. -/
structure sdrplay_api_RspDxTunerParamsT where
  hdrBw : sdrplay_api_RspDx_HdrModeBwT
  deriving DecidableEq, Repr

/-! ## sdrplay_api_dev.h and sdrplay_api_rx_channel.h -/

/-- Transfer mode `sdrplay_api_TransferModeT` (ISOCH = 0, BULK = 1). -/
inductive sdrplay_api_TransferModeT
  | ISOCH | BULK
  deriving DecidableEq, Repr

/-- Sample rate block `sdrplay_api_FsFreqT`. -/
structure sdrplay_api_FsFreqT where
  fsHz : ℚ
  syncUpdate : Nat
  reCal : Nat
  deriving DecidableEq, Repr

/-- Sync-update scheduling block `sdrplay_api_SyncUpdateT`. -/
structure sdrplay_api_SyncUpdateT where
  sampleNum : Nat
  period : Nat
  deriving DecidableEq, Repr

/-- Reset flags block `sdrplay_api_ResetFlagsT`. -/
structure sdrplay_api_ResetFlagsT where
  resetGainUpdate : Nat
  resetRfUpdate : Nat
  resetFsUpdate : Nat
  deriving DecidableEq, Repr

/-- Device-level block `sdrplay_api_DevParamsT` (sdrplay_api_dev.h lines 37-49). -/
structure sdrplay_api_DevParamsT where
  ppm : ℚ
  fsFreq : sdrplay_api_FsFreqT
  syncUpdate : sdrplay_api_SyncUpdateT
  resetFlags : sdrplay_api_ResetFlagsT
  mode : sdrplay_api_TransferModeT
  samplesPerPkt : Nat
  rsp1aParams : sdrplay_api_Rsp1aParamsT
  rsp2Params : sdrplay_api_Rsp2ParamsT
  rspDuoParams : sdrplay_api_RspDuoParamsT
  rspDxParams : sdrplay_api_RspDxParamsT
  deriving DecidableEq, Repr

/-- Per-channel block `sdrplay_api_RxChannelParamsT` (sdrplay_api_rx_channel.h). -/
structure sdrplay_api_RxChannelParamsT where
  tunerParams : sdrplay_api_TunerParamsT
  ctrlParams : sdrplay_api_ControlParamsT
  rsp1aTunerParams : sdrplay_api_Rsp1aTunerParamsT
  rsp2TunerParams : sdrplay_api_Rsp2TunerParamsT
  rspDuoTunerParams : sdrplay_api_RspDuoTunerParamsT
  rspDxTunerParams : sdrplay_api_RspDxTunerParamsT
  deriving DecidableEq, Repr

/-! ## sdrplay_api.h : device and parameter tree -/

/-- Device structure `sdrplay_api_DeviceT` (sdrplay_api.h lines 141-151). `valid`
is the C `unsigned char` flag, zero meaning invalid; `dev` is the transport handle. -/
structure sdrplay_api_DeviceT where
  SerNo : String
  hwVer : Nat
  tuner : sdrplay_api_TunerSelectT
  rspDuoMode : sdrplay_api_RspDuoModeT
  valid : Nat
  rspDuoSampleFreq : ℚ
  dev : Nat
  deriving DecidableEq, Repr

/-- Parameter tree `sdrplay_api_DeviceParamsT` (sdrplay_api.h lines 153-159): three
pointers, each possibly null. -/
structure sdrplay_api_DeviceParamsT where
  devParams : Option sdrplay_api_DevParamsT
  rxChannelA : Option sdrplay_api_RxChannelParamsT
  rxChannelB : Option sdrplay_api_RxChannelParamsT
  deriving DecidableEq, Repr

/-! ## sdrplay_api_callback.h : events -/

/-- Overload event id `sdrplay_api_PowerOverloadCbEventIdT` (Detected = 0, Corrected = 1). -/
inductive sdrplay_api_PowerOverloadCbEventIdT
  | Overload_Detected | Overload_Corrected
  deriving DecidableEq, Repr

/-- Duo mode event id `sdrplay_api_RspDuoModeCbEventIdT` (values 0..6 in order). -/
inductive sdrplay_api_RspDuoModeCbEventIdT
  | MasterInitialised | SlaveAttached | SlaveDetached | SlaveInitialised
  | SlaveUninitialised | MasterDllDisappeared | SlaveDllDisappeared
  deriving DecidableEq, Repr

/-- Event id `sdrplay_api_EventT` (sdrplay_api_callback.h lines 22-29). -/
inductive sdrplay_api_EventT
  | GainChange
  | PowerOverloadChange
  | DeviceRemoved
  | RspDuoModeChange
  | DeviceFailure
  deriving DecidableEq, Repr

/-- Numeric value of each event id. -/
def sdrplay_api_EventT.val : sdrplay_api_EventT → Nat
  | .GainChange => 0
  | .PowerOverloadChange => 1
  | .DeviceRemoved => 2
  | .RspDuoModeChange => 3
  | .DeviceFailure => 4

/-- Gain event parameters `sdrplay_api_GainCbParamT`. -/
structure sdrplay_api_GainCbParamT where
  gRdB : Nat
  lnaGRdB : Nat
  currGain : ℚ
  deriving DecidableEq, Repr

/-- Event parameter overlay `sdrplay_api_EventParamsT`: a C union, carried here
as the alternative that was written. -/
inductive sdrplay_api_EventParamsT
  | gainParams (p : sdrplay_api_GainCbParamT)
  | powerOverloadParams (powerOverloadChangeType : sdrplay_api_PowerOverloadCbEventIdT)
  | rspDuoModeParams (modeChangeType : sdrplay_api_RspDuoModeCbEventIdT)
  deriving DecidableEq, Repr

/-! ## Parameter Store: leaf fields and `setGain` -/

/-- Leaf members of the device-level block `sdrplay_api_DevParamsT`, named
`member_leaf` after the struct members of sdrplay_api_dev.h and the per-variant
`...ParamsT` structs it embeds. -/
inductive DevField
  | ppm
  | fsFreq_fsHz
  | fsFreq_syncUpdate
  | fsFreq_reCal
  | syncUpdate_sampleNum
  | syncUpdate_period
  | resetFlags_resetGainUpdate
  | resetFlags_resetRfUpdate
  | resetFlags_resetFsUpdate
  | mode
  | samplesPerPkt
  | rsp1aParams_rfNotchEnable
  | rsp1aParams_rfDabNotchEnable
  | rsp2Params_extRefOutputEn
  | rspDuoParams_extRefOutputEn
  | rspDxParams_hdrEnable
  | rspDxParams_biasTEnable
  | rspDxParams_antennaSel
  | rspDxParams_rfNotchEnable
  | rspDxParams_rfDabNotchEnable
  deriving DecidableEq, Repr

/-- Leaf members of the per-channel block `sdrplay_api_RxChannelParamsT`, named
after the struct members of sdrplay_api_rx_channel.h, sdrplay_api_tuner.h,
sdrplay_api_control.h and the per-variant `...TunerParamsT` structs. -/
inductive RxField
  | tunerParams_bwType
  | tunerParams_ifType
  | tunerParams_loMode
  | tunerParams_gain_gRdB
  | tunerParams_gain_LNAstate
  | tunerParams_gain_syncUpdate
  | tunerParams_gain_minGr
  | tunerParams_gain_gainVals
  | tunerParams_rfFreq_rfHz
  | tunerParams_rfFreq_syncUpdate
  | tunerParams_dcOffsetTuner_dcCal
  | tunerParams_dcOffsetTuner_speedUp
  | tunerParams_dcOffsetTuner_trackTime
  | tunerParams_dcOffsetTuner_refreshRateTime
  | ctrlParams_dcOffset_DCenable
  | ctrlParams_dcOffset_IQenable
  | ctrlParams_decimation_enable
  | ctrlParams_decimation_decimationFactor
  | ctrlParams_decimation_wideBandSignal
  | ctrlParams_agc_enable
  | ctrlParams_agc_setPoint_dBfs
  | ctrlParams_agc_attack_ms
  | ctrlParams_agc_decay_ms
  | ctrlParams_agc_decay_delay_ms
  | ctrlParams_agc_decay_threshold_dB
  | ctrlParams_agc_syncUpdate
  | ctrlParams_adsbMode
  | rsp1aTunerParams_biasTEnable
  | rsp2TunerParams_biasTEnable
  | rsp2TunerParams_amPortSel
  | rsp2TunerParams_antennaSel
  | rsp2TunerParams_rfNotchEnable
  | rspDuoTunerParams_biasTEnable
  | rspDuoTunerParams_tuner1AmPortSel
  | rspDuoTunerParams_tuner1AmNotchEnable
  | rspDuoTunerParams_rfNotchEnable
  | rspDuoTunerParams_rfDabNotchEnable
  | rspDuoTunerParams_resetSlaveFlags_resetGainUpdate
  | rspDuoTunerParams_resetSlaveFlags_resetRfUpdate
  | rspDxTunerParams_hdrBw
  deriving DecidableEq, Repr

/-- A leaf field of the parameter tree `sdrplay_api_DeviceParamsT`: either in the
device-level block (`devParams`) or in a per-channel block (`rxChannelA`/`rxChannelB`). -/
inductive Field
  | dev (f : DevField)
  | rx (f : RxField)
  deriving DecidableEq, Repr

/-- Whether the field belongs to the device-level block `sdrplay_api_DevParamsT`. -/
def Field.isDeviceLevel : Field → Bool
  | .dev _ => true
  | .rx _ => false

/-- Whether the field belongs to the per-channel block `sdrplay_api_RxChannelParamsT`. -/
def Field.isPerChannel : Field → Bool
  | .dev _ => false
  | .rx _ => true

/-- Modelled from the spec: the Parameter Store setter `setGain` (section 4.1, section 8),
which the headers do not define. It validates the requested gain reduction against
the floor of the stored minimum-gain-reduction mode and the header maximum
`MAX_BB_GR`; out of range it fails with `InvalidParam` and leaves the stored gain
block unchanged, in range it stores the value. -/
def setGain (g : sdrplay_api_GainT) (gRdB : Int) : sdrplay_api_ErrT × sdrplay_api_GainT :=
  if g.minGr.val ≤ gRdB ∧ gRdB ≤ MAX_BB_GR then
    (.Success, { g with gRdB := gRdB })
  else
    (.InvalidParam, g)

/-! ## Reason-for-Update Encoder -/

/-- A named reason bit of either domain. -/
inductive NamedReason
  | primary (c : sdrplay_api_ReasonForUpdateT)
  | ext1 (c : sdrplay_api_ReasonForUpdateExtension1T)
  deriving DecidableEq, Repr

/-- Header section of a named reason. -/
def NamedReason.sect : NamedReason → UpdateSection
  | .primary c => c.sect
  | .ext1 c => c.sect

/-- The reason set holding exactly this named reason. -/
def NamedReason.toSet : NamedReason → ReasonSet
  | .primary c => ⟨c.val, sdrplay_api_ReasonForUpdateExtension1T.Update_Ext1_None.val⟩
  | .ext1 c => ⟨sdrplay_api_ReasonForUpdateT.Update_None.val, c.val⟩

/-- The two spare enumerators `Update_Master_Spare_1` and `Update_Master_Spare_2`. -/
def NamedReason.isSpare : NamedReason → Bool
  | .primary .Update_Master_Spare_1 => true
  | .primary .Update_Master_Spare_2 => true
  | _ => false

/-- The two `None` enumerators. -/
def NamedReason.isNone : NamedReason → Bool
  | .primary .Update_None => true
  | .ext1 .Update_Ext1_None => true
  | _ => false

/-- Modelled from the spec: the encoder's static mapping from a mutable leaf field
to its reason bit (section 4.2), which the headers do not define. Each field is
mapped to the enumerator that carries the name of its struct or member
(`Update_Dev_Fs` for `fsFreq`, `Update_Tuner_Gr` for the gain fields,
`Update_Rsp1a_BiasTControl` for `rsp1aTunerParams.biasTEnable`,
`Update_RspDx_HdrEnable` for `rspDxParams.hdrEnable`, ...). Output members and
members no enumerator names are unmapped. -/
def reasonOf : Field → Option NamedReason
  | .dev .ppm                          => some (.primary .Update_Dev_Ppm)
  | .dev .fsFreq_fsHz                  => some (.primary .Update_Dev_Fs)
  | .dev .fsFreq_syncUpdate            => some (.primary .Update_Dev_Fs)
  | .dev .fsFreq_reCal                 => some (.primary .Update_Dev_Fs)
  | .dev .syncUpdate_sampleNum         => some (.primary .Update_Dev_SyncUpdate)
  | .dev .syncUpdate_period            => some (.primary .Update_Dev_SyncUpdate)
  | .dev .resetFlags_resetGainUpdate   => some (.primary .Update_Dev_ResetFlags)
  | .dev .resetFlags_resetRfUpdate     => some (.primary .Update_Dev_ResetFlags)
  | .dev .resetFlags_resetFsUpdate     => some (.primary .Update_Dev_ResetFlags)
  | .dev .mode                         => none
  | .dev .samplesPerPkt                => none
  | .dev .rsp1aParams_rfNotchEnable    => some (.primary .Update_Rsp1a_RfNotchControl)
  | .dev .rsp1aParams_rfDabNotchEnable => some (.primary .Update_Rsp1a_RfDabNotchControl)
  | .dev .rsp2Params_extRefOutputEn    => some (.primary .Update_Rsp2_ExtRefControl)
  | .dev .rspDuoParams_extRefOutputEn  => some (.primary .Update_RspDuo_ExtRefControl)
  | .dev .rspDxParams_hdrEnable        => some (.ext1 .Update_RspDx_HdrEnable)
  | .dev .rspDxParams_biasTEnable      => some (.ext1 .Update_RspDx_BiasTControl)
  | .dev .rspDxParams_antennaSel       => some (.ext1 .Update_RspDx_AntennaControl)
  | .dev .rspDxParams_rfNotchEnable    => some (.ext1 .Update_RspDx_RfNotchControl)
  | .dev .rspDxParams_rfDabNotchEnable => some (.ext1 .Update_RspDx_RfDabNotchControl)
  | .rx .tunerParams_bwType            => some (.primary .Update_Tuner_BwType)
  | .rx .tunerParams_ifType            => some (.primary .Update_Tuner_IfType)
  | .rx .tunerParams_loMode            => some (.primary .Update_Tuner_LoMode)
  | .rx .tunerParams_gain_gRdB         => some (.primary .Update_Tuner_Gr)
  | .rx .tunerParams_gain_LNAstate     => some (.primary .Update_Tuner_Gr)
  | .rx .tunerParams_gain_syncUpdate   => some (.primary .Update_Tuner_Gr)
  | .rx .tunerParams_gain_minGr        => some (.primary .Update_Tuner_GrLimits)
  | .rx .tunerParams_gain_gainVals     => none
  | .rx .tunerParams_rfFreq_rfHz       => some (.primary .Update_Tuner_Frf)
  | .rx .tunerParams_rfFreq_syncUpdate => some (.primary .Update_Tuner_Frf)
  | .rx .tunerParams_dcOffsetTuner_dcCal           => some (.primary .Update_Tuner_DcOffset)
  | .rx .tunerParams_dcOffsetTuner_speedUp         => some (.primary .Update_Tuner_DcOffset)
  | .rx .tunerParams_dcOffsetTuner_trackTime       => some (.primary .Update_Tuner_DcOffset)
  | .rx .tunerParams_dcOffsetTuner_refreshRateTime => some (.primary .Update_Tuner_DcOffset)
  | .rx .ctrlParams_dcOffset_DCenable  => some (.primary .Update_Ctrl_DCoffsetIQimbalance)
  | .rx .ctrlParams_dcOffset_IQenable  => some (.primary .Update_Ctrl_DCoffsetIQimbalance)
  | .rx .ctrlParams_decimation_enable           => some (.primary .Update_Ctrl_Decimation)
  | .rx .ctrlParams_decimation_decimationFactor => some (.primary .Update_Ctrl_Decimation)
  | .rx .ctrlParams_decimation_wideBandSignal   => some (.primary .Update_Ctrl_Decimation)
  | .rx .ctrlParams_agc_enable             => some (.primary .Update_Ctrl_Agc)
  | .rx .ctrlParams_agc_setPoint_dBfs      => some (.primary .Update_Ctrl_Agc)
  | .rx .ctrlParams_agc_attack_ms          => some (.primary .Update_Ctrl_Agc)
  | .rx .ctrlParams_agc_decay_ms           => some (.primary .Update_Ctrl_Agc)
  | .rx .ctrlParams_agc_decay_delay_ms     => some (.primary .Update_Ctrl_Agc)
  | .rx .ctrlParams_agc_decay_threshold_dB => some (.primary .Update_Ctrl_Agc)
  | .rx .ctrlParams_agc_syncUpdate         => some (.primary .Update_Ctrl_Agc)
  | .rx .ctrlParams_adsbMode               => some (.primary .Update_Ctrl_AdsbMode)
  | .rx .rsp1aTunerParams_biasTEnable  => some (.primary .Update_Rsp1a_BiasTControl)
  | .rx .rsp2TunerParams_biasTEnable   => some (.primary .Update_Rsp2_BiasTControl)
  | .rx .rsp2TunerParams_amPortSel     => some (.primary .Update_Rsp2_AmPortSelect)
  | .rx .rsp2TunerParams_antennaSel    => some (.primary .Update_Rsp2_AntennaControl)
  | .rx .rsp2TunerParams_rfNotchEnable => some (.primary .Update_Rsp2_RfNotchControl)
  | .rx .rspDuoTunerParams_biasTEnable         => some (.primary .Update_RspDuo_BiasTControl)
  | .rx .rspDuoTunerParams_tuner1AmPortSel     => some (.primary .Update_RspDuo_AmPortSelect)
  | .rx .rspDuoTunerParams_tuner1AmNotchEnable =>
      some (.primary .Update_RspDuo_Tuner1AmNotchControl)
  | .rx .rspDuoTunerParams_rfNotchEnable       => some (.primary .Update_RspDuo_RfNotchControl)
  | .rx .rspDuoTunerParams_rfDabNotchEnable    =>
      some (.primary .Update_RspDuo_RfDabNotchControl)
  | .rx .rspDuoTunerParams_resetSlaveFlags_resetGainUpdate => none
  | .rx .rspDuoTunerParams_resetSlaveFlags_resetRfUpdate   => none
  | .rx .rspDxTunerParams_hdrBw        => some (.ext1 .Update_RspDx_HdrBw)

/-- Every leaf field of the parameter tree. -/
def Field.all : List Field :=
  [.dev .ppm, .dev .fsFreq_fsHz, .dev .fsFreq_syncUpdate, .dev .fsFreq_reCal,
   .dev .syncUpdate_sampleNum, .dev .syncUpdate_period, .dev .resetFlags_resetGainUpdate,
   .dev .resetFlags_resetRfUpdate, .dev .resetFlags_resetFsUpdate, .dev .mode,
   .dev .samplesPerPkt, .dev .rsp1aParams_rfNotchEnable, .dev .rsp1aParams_rfDabNotchEnable,
   .dev .rsp2Params_extRefOutputEn, .dev .rspDuoParams_extRefOutputEn,
   .dev .rspDxParams_hdrEnable, .dev .rspDxParams_biasTEnable, .dev .rspDxParams_antennaSel,
   .dev .rspDxParams_rfNotchEnable, .dev .rspDxParams_rfDabNotchEnable,
   .rx .tunerParams_bwType, .rx .tunerParams_ifType, .rx .tunerParams_loMode,
   .rx .tunerParams_gain_gRdB, .rx .tunerParams_gain_LNAstate,
   .rx .tunerParams_gain_syncUpdate, .rx .tunerParams_gain_minGr,
   .rx .tunerParams_gain_gainVals, .rx .tunerParams_rfFreq_rfHz,
   .rx .tunerParams_rfFreq_syncUpdate, .rx .tunerParams_dcOffsetTuner_dcCal,
   .rx .tunerParams_dcOffsetTuner_speedUp, .rx .tunerParams_dcOffsetTuner_trackTime,
   .rx .tunerParams_dcOffsetTuner_refreshRateTime, .rx .ctrlParams_dcOffset_DCenable,
   .rx .ctrlParams_dcOffset_IQenable, .rx .ctrlParams_decimation_enable,
   .rx .ctrlParams_decimation_decimationFactor, .rx .ctrlParams_decimation_wideBandSignal,
   .rx .ctrlParams_agc_enable, .rx .ctrlParams_agc_setPoint_dBfs,
   .rx .ctrlParams_agc_attack_ms, .rx .ctrlParams_agc_decay_ms,
   .rx .ctrlParams_agc_decay_delay_ms, .rx .ctrlParams_agc_decay_threshold_dB,
   .rx .ctrlParams_agc_syncUpdate, .rx .ctrlParams_adsbMode,
   .rx .rsp1aTunerParams_biasTEnable, .rx .rsp2TunerParams_biasTEnable,
   .rx .rsp2TunerParams_amPortSel, .rx .rsp2TunerParams_antennaSel,
   .rx .rsp2TunerParams_rfNotchEnable, .rx .rspDuoTunerParams_biasTEnable,
   .rx .rspDuoTunerParams_tuner1AmPortSel, .rx .rspDuoTunerParams_tuner1AmNotchEnable,
   .rx .rspDuoTunerParams_rfNotchEnable, .rx .rspDuoTunerParams_rfDabNotchEnable,
   .rx .rspDuoTunerParams_resetSlaveFlags_resetGainUpdate,
   .rx .rspDuoTunerParams_resetSlaveFlags_resetRfUpdate, .rx .rspDxTunerParams_hdrBw]

/-- The leaf fields a named reason names under `reasonOf`. -/
def fieldsNamedBy (b : NamedReason) : List Field :=
  Field.all.filter (fun f => decide (reasonOf f = some b))

/-- Modelled from the spec: `encode(fieldPath) -> ReasonSet` (section 4.2). A mapped
field encodes to the reason set holding its one bit; an unmapped field is the
"unmapped field" error, `none`. -/
def encode (f : Field) : Option ReasonSet :=
  (reasonOf f).map NamedReason.toSet

/-- Modelled from the spec: accumulation of one more field mutation into the
pending reason set by bitwise union (section 4.2). -/
def accumulate (acc : ReasonSet) (f : Field) : Option ReasonSet :=
  (encode f).map (fun r => acc.union r)

/-- Modelled from the spec: accumulation of a sequence of field mutations, in the
order they were made, starting from a pending reason set. -/
def accumulateAll : ReasonSet → List Field → Option ReasonSet
  | acc, [] => some acc
  | acc, f :: fs => (accumulate acc f).bind (fun acc1 => accumulateAll acc1 fs)

/-! ## Update Dispatcher -/

/-- Every enumerator of both reason domains in header order: the primary
enumeration, then the extension-1 enumeration. -/
def NamedReason.all : List NamedReason :=
  sdrplay_api_ReasonForUpdateT.all.map NamedReason.primary ++
    sdrplay_api_ReasonForUpdateExtension1T.all.map NamedReason.ext1

/-- Numeric value of a named reason in its own domain. -/
def NamedReason.val : NamedReason → Nat
  | .primary c => c.val
  | .ext1 c => c.val

/-- Whether a reason set has the bit of a named reason set in the word of its
domain; the two `None` enumerators, of value 0, are never contained. -/
def ReasonSet.contains (r : ReasonSet) : NamedReason → Bool
  | .primary c => decide (r.primary &&& c.val ≠ 0)
  | .ext1 c => decide (r.ext1 &&& c.val ≠ 0)

/-- The named reasons present in a reason set, in header order. -/
def presentReasons (r : ReasonSet) : List NamedReason :=
  NamedReason.all.filter (fun b => r.contains b)

/-- Modelled from the spec: the precedence class (0 = applied first) of each named
reason under the fixed precedence order of section 4.3, which the headers do not
define: 0 gain-reduction, 1 gain-limits, 2 RF frequency, 3 bandwidth / IF / LO-mode,
4 the control-block bits DC/IQ, decimation, AGC, ADS-B, 5 the variant-specific bits
(every `Rsp1a`, `Rsp2`, `RspDuo` and `RspDx` enumerator). The specification gives no
position to the remaining bits (the four `Dev` bits, the two spares,
`Update_Tuner_DcOffset`, `Update_Ctrl_OverloadMsgAck`); they are put in class 6,
after every bit the specification places. -/
def precedenceClass : NamedReason → Nat
  | .primary .Update_Tuner_Gr                    => 0
  | .primary .Update_Tuner_GrLimits              => 1
  | .primary .Update_Tuner_Frf                   => 2
  | .primary .Update_Tuner_BwType                => 3
  | .primary .Update_Tuner_IfType                => 3
  | .primary .Update_Tuner_LoMode                => 3
  | .primary .Update_Ctrl_DCoffsetIQimbalance    => 4
  | .primary .Update_Ctrl_Decimation             => 4
  | .primary .Update_Ctrl_Agc                    => 4
  | .primary .Update_Ctrl_AdsbMode               => 4
  | .primary .Update_Rsp1a_BiasTControl          => 5
  | .primary .Update_Rsp1a_RfNotchControl        => 5
  | .primary .Update_Rsp1a_RfDabNotchControl     => 5
  | .primary .Update_Rsp2_BiasTControl           => 5
  | .primary .Update_Rsp2_AmPortSelect           => 5
  | .primary .Update_Rsp2_AntennaControl         => 5
  | .primary .Update_Rsp2_RfNotchControl         => 5
  | .primary .Update_Rsp2_ExtRefControl          => 5
  | .primary .Update_RspDuo_ExtRefControl        => 5
  | .primary .Update_RspDuo_BiasTControl         => 5
  | .primary .Update_RspDuo_AmPortSelect         => 5
  | .primary .Update_RspDuo_Tuner1AmNotchControl => 5
  | .primary .Update_RspDuo_RfNotchControl       => 5
  | .primary .Update_RspDuo_RfDabNotchControl    => 5
  | .ext1 .Update_RspDx_HdrEnable                => 5
  | .ext1 .Update_RspDx_BiasTControl             => 5
  | .ext1 .Update_RspDx_AntennaControl           => 5
  | .ext1 .Update_RspDx_RfNotchControl           => 5
  | .ext1 .Update_RspDx_RfDabNotchControl        => 5
  | .ext1 .Update_RspDx_HdrBw                    => 5
  | .primary .Update_None                        => 6
  | .primary .Update_Dev_Fs                      => 6
  | .primary .Update_Dev_Ppm                     => 6
  | .primary .Update_Dev_SyncUpdate              => 6
  | .primary .Update_Dev_ResetFlags              => 6
  | .primary .Update_Master_Spare_1              => 6
  | .primary .Update_Master_Spare_2              => 6
  | .primary .Update_Tuner_DcOffset              => 6
  | .primary .Update_Ctrl_OverloadMsgAck         => 6
  | .ext1 .Update_Ext1_None                      => 6

/-- Modelled from the spec: the sequence in which the dispatcher applies the bits
of an accepted reason set (section 4.3): every named reason present, sorted by
precedence class; the sort is stable, so bits of one class keep header order. -/
def appliedOrder (r : ReasonSet) : List NamedReason :=
  (presentReasons r).insertionSort (fun a b => precedenceClass a ≤ precedenceClass b)

/-- Modelled from the spec: the transport's apply call, an external collaborator
(section 1), of which the headers give no definition: given the
staged tree, the tuner and the two reason words it performs the hardware write and
returns a result code together with the tree it leaves behind (output members such
as `gainVals` populated). -/
abbrev Transport :=
  sdrplay_api_DeviceParamsT → sdrplay_api_TunerSelectT → Nat → Nat →
    sdrplay_api_ErrT × sdrplay_api_DeviceParamsT

/-- Modelled from the spec: a device session as seen by the dispatcher: the selected
device, its staged parameter tree (section 4.1), the number of transport apply calls
issued so far, and the reason bits handed to those calls so far, in the order of
application. -/
structure Session where
  device : sdrplay_api_DeviceT
  params : sdrplay_api_DeviceParamsT
  applyCalls : Nat
  applyLog : List NamedReason
  deriving DecidableEq, Repr

/-- Modelled from the spec: `dispatch(tuner, reasonSet) -> Result`, the body of
`sdrplay_api_Update` (sections 4.3, 4.5, 7), which the headers only declare.
A device in duo mode Slave asked for a master-only bit fails with `InvalidMode`
(section 4.3, section 8: always); otherwise an invalidated device fails with
`NotInitialised`; neither reaches the transport. Otherwise the accepted bits are
applied in the order `appliedOrder`, one apply call is issued and its result
returned; only on `Success` does the tree the transport leaves behind replace the
staged tree. -/
def dispatch (tr : Transport) (s : Session) (tuner : sdrplay_api_TunerSelectT)
    (r : ReasonSet) : sdrplay_api_ErrT × Session :=
  if s.device.rspDuoMode = .RspDuoMode_Slave ∧ r.containsMasterOnly = true then
    (.InvalidMode, s)
  else if s.device.valid = 0 then
    (.NotInitialised, s)
  else
    match tr s.params tuner r.primary r.ext1 with
    | (.Success, p) =>
      (.Success, { s with params := p, applyCalls := s.applyCalls + 1,
                          applyLog := s.applyLog ++ appliedOrder r })
    | (e, _) =>
      (e, { s with applyCalls := s.applyCalls + 1,
                   applyLog := s.applyLog ++ appliedOrder r })

/-! ## Concrete values used in the examples -/

/-- The header defaults of a gain block (gRdB 50, LNAstate 0, Normal floor). -/
def exampleGain : sdrplay_api_GainT :=
  { gRdB := 50, LNAstate := 0, syncUpdate := 0, minGr := .NORMAL_MIN_GR,
    gainVals := { curr := 0, max := 0, min := 0 } }

/-- A parameter tree with all three pointers null. -/
def emptyParams : sdrplay_api_DeviceParamsT :=
  { devParams := none, rxChannelA := none, rxChannelB := none }

/-- A valid RSPduo device selected as Slave on tuner B. -/
def slaveDevice : sdrplay_api_DeviceT :=
  { SerNo := "0001", hwVer := 3, tuner := .Tuner_B, rspDuoMode := .RspDuoMode_Slave,
    valid := 1, rspDuoSampleFreq := 6000000, dev := 1 }

/-- A session on `slaveDevice` with no apply call issued yet. -/
def slaveSession : Session :=
  { device := slaveDevice, params := emptyParams, applyCalls := 0, applyLog := [] }

/-- The same session with the device's `valid` flag clear. -/
def removedSlaveSession : Session :=
  { slaveSession with device := { slaveDevice with valid := 0 } }

/-- A transport whose apply call always succeeds and leaves the tree as it is. -/
def okTransport : Transport := fun p _ _ _ => (.Success, p)

/-- A transport whose apply call always fails with `HwError` after clearing the tree. -/
def failingTransport : Transport := fun _ _ _ _ => (.HwError, emptyParams)

/-- A per-channel block with the header defaults. -/
def exampleChannel : sdrplay_api_RxChannelParamsT :=
  { tunerParams :=
      { bwType := .BW_0_200, ifType := .IF_Zero, loMode := .LO_Auto, gain := exampleGain,
        rfFreq := { rfHz := 200000000, syncUpdate := 0 },
        dcOffsetTuner := { dcCal := 3, speedUp := 0, trackTime := 1, refreshRateTime := 2048 } },
    ctrlParams :=
      { dcOffset := { DCenable := 1, IQenable := 1 },
        decimation := { enable := 0, decimationFactor := 1, wideBandSignal := 0 },
        agc := { enable := .AGC_50HZ, setPoint_dBfs := -60, attack_ms := 0, decay_ms := 0,
                 decay_delay_ms := 0, decay_threshold_dB := 0, syncUpdate := 0 },
        adsbMode := .ADSB_DECIMATION },
    rsp1aTunerParams := { biasTEnable := 0 },
    rsp2TunerParams :=
      { biasTEnable := 0, amPortSel := .Rsp2_AMPORT_2, antennaSel := .Rsp2_ANTENNA_A,
        rfNotchEnable := 0 },
    rspDuoTunerParams :=
      { biasTEnable := 0, tuner1AmPortSel := .RspDuo_AMPORT_2, tuner1AmNotchEnable := 0,
        rfNotchEnable := 0, rfDabNotchEnable := 0,
        resetSlaveFlags := { resetGainUpdate := 0, resetRfUpdate := 0 } },
    rspDxTunerParams := { hdrBw := .RspDx_HDRMODE_BW_1_700 } }

/-- A staged tree of a single-tuner session: no device-level block fetched, channel A
present with gain reduction 40 staged, channel B null. -/
def stagedParams : sdrplay_api_DeviceParamsT :=
  { devParams := none,
    rxChannelA := some { exampleChannel with
      tunerParams := { exampleChannel.tunerParams with
        gain := { exampleGain with gRdB := 40 } } },
    rxChannelB := none }

/-- A valid RSPduo device in Single-Tuner mode on tuner A. -/
def singleDevice : sdrplay_api_DeviceT :=
  { SerNo := "0001", hwVer := 3, tuner := .Tuner_A, rspDuoMode := .RspDuoMode_Single_Tuner,
    valid := 1, rspDuoSampleFreq := 0, dev := 1 }

/-- A session on `singleDevice` holding `stagedParams`. -/
def singleSession : Session :=
  { device := singleDevice, params := stagedParams, applyCalls := 0, applyLog := [] }

/-- The master-only reasons whose named field lies in the per-channel block: the
per-tuner members of the single-tuner variants RSP1A, RSP2 and RSPdx
(`rsp1aTunerParams`, `rsp2TunerParams`, `rspDxTunerParams`). -/
def perChannelMasterOnly : List NamedReason :=
  [.primary .Update_Rsp1a_BiasTControl,
   .primary .Update_Rsp2_BiasTControl,
   .primary .Update_Rsp2_AmPortSelect,
   .primary .Update_Rsp2_AntennaControl,
   .primary .Update_Rsp2_RfNotchControl,
   .ext1 .Update_RspDx_HdrBw]

/-! ## Header constants: variant ids, LNA state counts, DC offset timing -/

/-- The constant `SDRPLAY_RSP1_ID` (sdrplay_api.h line 33). -/
def SDRPLAY_RSP1_ID : Nat := 1

/-- The constant `SDRPLAY_RSP1A_ID` (sdrplay_api.h line 34). -/
def SDRPLAY_RSP1A_ID : Nat := 255

/-- The constant `SDRPLAY_RSP2_ID` (sdrplay_api.h line 35). -/
def SDRPLAY_RSP2_ID : Nat := 2

/-- The constant `SDRPLAY_RSPduo_ID` (sdrplay_api.h line 36). -/
def SDRPLAY_RSPduo_ID : Nat := 3

/-- The constant `SDRPLAY_RSPdx_ID` (sdrplay_api.h line 37). -/
def SDRPLAY_RSPdx_ID : Nat := 4

/-- The five device variants that have an id constant in sdrplay_api.h. -/
inductive Variant
  | RSP1
  | RSP1A
  | RSP2
  | RSPduo
  | RSPdx
  deriving DecidableEq, Repr

/-- Every variant, in header order of the id constants. -/
def Variant.all : List Variant := [.RSP1, .RSP1A, .RSP2, .RSPduo, .RSPdx]

/-- The id constant of each variant. -/
def Variant.id : Variant → Nat
  | .RSP1 => SDRPLAY_RSP1_ID
  | .RSP1A => SDRPLAY_RSP1A_ID
  | .RSP2 => SDRPLAY_RSP2_ID
  | .RSPduo => SDRPLAY_RSPduo_ID
  | .RSPdx => SDRPLAY_RSPdx_ID

/-- Assignment of an integer to the `unsigned char hwVer` member of
`sdrplay_api_DeviceT`: the value is reduced modulo 2^8. -/
def setHwVer (d : sdrplay_api_DeviceT) (id : Nat) : sdrplay_api_DeviceT :=
  { d with hwVer := id % 2 ^ 8 }

/-- The variant whose id constant equals a stored `hwVer`, if any. -/
def variantOfHwVer (hwVer : Nat) : Option Variant :=
  Variant.all.find? (fun v => decide (v.id = hwVer))

/-- The constant `RSPIA_NUM_LNA_STATES` (sdrplay_api_rsp1a.h line 4). -/
def RSPIA_NUM_LNA_STATES : Nat := 10

/-- The constant `RSPIA_NUM_LNA_STATES_AM` (sdrplay_api_rsp1a.h line 5). -/
def RSPIA_NUM_LNA_STATES_AM : Nat := 7

/-- The constant `RSPIA_NUM_LNA_STATES_LBAND` (sdrplay_api_rsp1a.h line 6). -/
def RSPIA_NUM_LNA_STATES_LBAND : Nat := 9

/-- The constant `RSPII_NUM_LNA_STATES` (sdrplay_api_rsp2.h line 4). -/
def RSPII_NUM_LNA_STATES : Nat := 9

/-- The constant `RSPII_NUM_LNA_STATES_AMPORT` (sdrplay_api_rsp2.h line 5). -/
def RSPII_NUM_LNA_STATES_AMPORT : Nat := 5

/-- The constant `RSPII_NUM_LNA_STATES_420MHZ` (sdrplay_api_rsp2.h line 6). -/
def RSPII_NUM_LNA_STATES_420MHZ : Nat := 6

/-- The constant `RSPDUO_NUM_LNA_STATES` (sdrplay_api_rspDuo.h line 4). -/
def RSPDUO_NUM_LNA_STATES : Nat := 10

/-- The constant `RSPDUO_NUM_LNA_STATES_AMPORT` (sdrplay_api_rspDuo.h line 5). -/
def RSPDUO_NUM_LNA_STATES_AMPORT : Nat := 5

/-- The constant `RSPDUO_NUM_LNA_STATES_AM` (sdrplay_api_rspDuo.h line 6). -/
def RSPDUO_NUM_LNA_STATES_AM : Nat := 7

/-- The constant `RSPDUO_NUM_LNA_STATES_LBAND` (sdrplay_api_rspDuo.h line 7). -/
def RSPDUO_NUM_LNA_STATES_LBAND : Nat := 9

/-- The constant `RSPDX_NUM_LNA_STATES` (sdrplay_api_rspDx.h line 6): all bands except
where defined differently. -/
def RSPDX_NUM_LNA_STATES : Nat := 28

/-- The constant `RSPDX_NUM_LNA_STATES_AMPORT2_0_12` (sdrplay_api_rspDx.h line 7). -/
def RSPDX_NUM_LNA_STATES_AMPORT2_0_12 : Nat := 19

/-- The constant `RSPDX_NUM_LNA_STATES_AMPORT2_12_60` (sdrplay_api_rspDx.h line 8). -/
def RSPDX_NUM_LNA_STATES_AMPORT2_12_60 : Nat := 20

/-- The constant `RSPDX_NUM_LNA_STATES_VHF_BAND3` (sdrplay_api_rspDx.h line 9). -/
def RSPDX_NUM_LNA_STATES_VHF_BAND3 : Nat := 27

/-- The constant `RSPDX_NUM_LNA_STATES_420MHZ` (sdrplay_api_rspDx.h line 10). -/
def RSPDX_NUM_LNA_STATES_420MHZ : Nat := 21

/-- The constant `RSPDX_NUM_LNA_STATES_LBAND` (sdrplay_api_rspDx.h line 11). -/
def RSPDX_NUM_LNA_STATES_LBAND : Nat := 19

/-- The constant `RSPDX_NUM_LNA_STATES_DX` (sdrplay_api_rspDx.h line 12). -/
def RSPDX_NUM_LNA_STATES_DX : Nat := 26

/-- The general LNA-state count of a variant, the constant without a band suffix;
the headers define none for the RSP1. -/
def generalLnaStates : Variant → Option Nat
  | .RSP1 => none
  | .RSP1A => some RSPIA_NUM_LNA_STATES
  | .RSP2 => some RSPII_NUM_LNA_STATES
  | .RSPduo => some RSPDUO_NUM_LNA_STATES
  | .RSPdx => some RSPDX_NUM_LNA_STATES

/-- The band- or port-specific LNA-state counts of a variant, in header order. -/
def bandLnaStates : Variant → List Nat
  | .RSP1 => []
  | .RSP1A => [RSPIA_NUM_LNA_STATES_AM, RSPIA_NUM_LNA_STATES_LBAND]
  | .RSP2 => [RSPII_NUM_LNA_STATES_AMPORT, RSPII_NUM_LNA_STATES_420MHZ]
  | .RSPduo => [RSPDUO_NUM_LNA_STATES_AMPORT, RSPDUO_NUM_LNA_STATES_AM,
                RSPDUO_NUM_LNA_STATES_LBAND]
  | .RSPdx => [RSPDX_NUM_LNA_STATES_AMPORT2_0_12, RSPDX_NUM_LNA_STATES_AMPORT2_12_60,
               RSPDX_NUM_LNA_STATES_VHF_BAND3, RSPDX_NUM_LNA_STATES_420MHZ,
               RSPDX_NUM_LNA_STATES_LBAND, RSPDX_NUM_LNA_STATES_DX]

/-- An LNA state index is valid for a count of states when it is below the count
(indices run from 0, the default `LNAstate`). -/
def validLnaState (numStates : Nat) (LNAstate : Nat) : Bool :=
  decide (LNAstate < numStates)

/-- The time formula documented on `sdrplay_api_DcOffsetTunerT`
(sdrplay_api_tuner.h lines 79-80), `(72 * 3 * t) / 24e6`, read in seconds. -/
def dcOffsetTimeSeconds (t : Int) : ℚ :=
  (72 * 3 * (t : ℚ)) / 24000000

/-- The documented time in microseconds: the time in seconds times 10^6. -/
def dcOffsetTimeMicros (t : Int) : ℚ :=
  dcOffsetTimeSeconds t * 1000000

/-- The header defaults of `sdrplay_api_DcOffsetTunerT` (dcCal 3, speedUp 0,
trackTime 1, refreshRateTime 2048). -/
def defaultDcOffsetTuner : sdrplay_api_DcOffsetTunerT :=
  { dcCal := 3, speedUp := 0, trackTime := 1, refreshRateTime := 2048 }

theorem and_ne_zero_iff_common_bit (a b : Nat) :
    a &&& b ≠ 0 ↔ ∃ i, a.testBit i = true ∧ b.testBit i = true := by
  constructor
  · intro h
    obtain ⟨i, hi⟩ := Nat.ne_zero_implies_bit_true h
    rw [Nat.testBit_and, Bool.and_eq_true] at hi
    exact ⟨i, hi⟩
  · rintro ⟨i, ha, hb⟩ h
    have : (a &&& b).testBit i = true := by
      rw [Nat.testBit_and, ha, hb]
      rfl
    rw [h, Nat.zero_testBit] at this
    exact Bool.noConfusion this

theorem mem_all_primary (c : sdrplay_api_ReasonForUpdateT) :
    c ∈ sdrplay_api_ReasonForUpdateT.all := by
  cases c <;> decide

theorem mem_all_ext1 (c : sdrplay_api_ReasonForUpdateExtension1T) :
    c ∈ sdrplay_api_ReasonForUpdateExtension1T.all := by
  cases c <;> decide

theorem dispatch_rejected (tr : Transport) (s : Session) (tuner : sdrplay_api_TunerSelectT)
    (r : ReasonSet) (hslave : s.device.rspDuoMode = .RspDuoMode_Slave)
    (hm : r.containsMasterOnly = true) :
    dispatch tr s tuner r = (.InvalidMode, s) := by
  simp [dispatch, hslave, hm]

theorem dispatch_invalid (tr : Transport) (s : Session) (tuner : sdrplay_api_TunerSelectT)
    (r : ReasonSet)
    (hmode : ¬ (s.device.rspDuoMode = .RspDuoMode_Slave ∧ r.containsMasterOnly = true))
    (h : s.device.valid = 0) :
    dispatch tr s tuner r = (.NotInitialised, s) := by
  unfold dispatch
  rw [if_neg hmode, if_pos h]

theorem dispatch_accepted (tr : Transport) (s : Session) (tuner : sdrplay_api_TunerSelectT)
    (r : ReasonSet)
    (hmode : ¬ (s.device.rspDuoMode = .RspDuoMode_Slave ∧ r.containsMasterOnly = true))
    (hvalid : s.device.valid ≠ 0) :
    dispatch tr s tuner r =
      ((tr s.params tuner r.primary r.ext1).1,
       { s with
         params := if (tr s.params tuner r.primary r.ext1).1 = .Success
                   then (tr s.params tuner r.primary r.ext1).2 else s.params,
         applyCalls := s.applyCalls + 1,
         applyLog := s.applyLog ++ appliedOrder r }) := by
  unfold dispatch
  rw [if_neg hmode, if_neg hvalid]
  rcases tr s.params tuner r.primary r.ext1 with ⟨e, p⟩
  cases e <;> rfl

/-! ## C1 : master-only bits in Slave mode -/

/-- No result function returns `NotInitialised` on every device whose `valid` flag is
clear and also `InvalidMode` on every device in duo mode Slave asked for a master-only
bit: the two requirements meet on a Slave device that has been invalidated. -/
theorem not_initialised_and_invalid_mode_conflict :
    ¬ ∃ d : Session → sdrplay_api_TunerSelectT → ReasonSet → sdrplay_api_ErrT,
      (∀ s t r, s.device.valid = 0 → d s t r = .NotInitialised) ∧
      (∀ s t r, s.device.rspDuoMode = .RspDuoMode_Slave → r.containsMasterOnly = true →
        d s t r = .InvalidMode) := by
  rintro ⟨d, hinv, hrej⟩
  have h1 := hinv removedSlaveSession .Tuner_B
    (ReasonSet.mk sdrplay_api_ReasonForUpdateT.Update_Dev_Fs.val 0) (by decide)
  have h2 := hrej removedSlaveSession .Tuner_B
    (ReasonSet.mk sdrplay_api_ReasonForUpdateT.Update_Dev_Fs.val 0) (by decide) (by decide)
  rw [h1] at h2
  exact sdrplay_api_ErrT.noConfusion h2

/-! ## C2 : position of the gain-reduction bit -/

theorem masterAndSlaveMask_low_bits (i : Nat) (hi : i < 15) :
    masterAndSlaveMask.testBit i = false := by
  interval_cases i <;> decide

/-- C2: `Update_Tuner_Gr` is greater than every master-only enumerator and smaller
than every other master-and-slave enumerator; a named non-zero primary reason, and
likewise any single bit below 2^32, is master-only exactly when it is below
`Update_Tuner_Gr`; the union of the master-only enumerators is
`Update_Tuner_Gr - 1 = 0x7FFF`; and in any reason word containing the
gain-reduction bit, bit 15 is the lowest bit of the master-and-slave part. -/
theorem C2_tuner_gr_first_master_and_slave :
    (∀ c : sdrplay_api_ReasonForUpdateT, c.sect = .masterOnly →
      c.val < sdrplay_api_ReasonForUpdateT.Update_Tuner_Gr.val) ∧
    (∀ c : sdrplay_api_ReasonForUpdateT, c.sect = .masterAndSlave → c ≠ .Update_Tuner_Gr →
      sdrplay_api_ReasonForUpdateT.Update_Tuner_Gr.val < c.val) ∧
    sdrplay_api_ReasonForUpdateT.Update_Tuner_Gr.sect = .masterAndSlave ∧
    (∀ c : sdrplay_api_ReasonForUpdateT, c.val ≠ 0 →
      (c.sect = .masterOnly ↔ c.val < sdrplay_api_ReasonForUpdateT.Update_Tuner_Gr.val)) ∧
    (∀ i : Nat, i < 32 →
      (2 ^ i &&& masterOnlyMask ≠ 0 ↔
        2 ^ i < sdrplay_api_ReasonForUpdateT.Update_Tuner_Gr.val)) ∧
    masterOnlyMask = sdrplay_api_ReasonForUpdateT.Update_Tuner_Gr.val - 1 ∧
    masterOnlyMask = 0x7FFF ∧
    (∀ r : Nat, hasReason r .Update_Tuner_Gr = true →
      (r &&& masterAndSlaveMask).testBit 15 = true ∧
      (∀ i : Nat, i < 15 → (r &&& masterAndSlaveMask).testBit i = false) ∧
      (∀ c : sdrplay_api_ReasonForUpdateT, c.sect = .masterAndSlave → hasReason r c = true →
        sdrplay_api_ReasonForUpdateT.Update_Tuner_Gr.val ≤ c.val)) := by
  refine ⟨?_, ?_, rfl, ?_, ?_, by decide, by decide, ?_⟩
  · intro c hc
    cases c <;> first | decide | exact absurd hc (by decide)
  · intro c hc hne
    cases c <;> first | decide | exact absurd rfl hne | exact absurd hc (by decide)
  · intro c hc
    cases c <;> first | decide | exact absurd rfl hc
  · intro i hi
    interval_cases i <;> decide
  · intro r hr
    have hbit : r.testBit 15 = true := by
      have h1 : r &&& sdrplay_api_ReasonForUpdateT.Update_Tuner_Gr.val ≠ 0 :=
        of_decide_eq_true hr
      obtain ⟨i, hri, hci⟩ := (and_ne_zero_iff_common_bit _ _).1 h1
      have hval : sdrplay_api_ReasonForUpdateT.Update_Tuner_Gr.val = 2 ^ 15 := by decide
      rw [hval, Nat.testBit_two_pow] at hci
      have : 15 = i := of_decide_eq_true hci
      rw [this]
      exact hri
    refine ⟨?_, ?_, ?_⟩
    · rw [Nat.testBit_and, hbit]
      decide
    · intro i hi
      rw [Nat.testBit_and, masterAndSlaveMask_low_bits i hi, Bool.and_false]
    · intro c hc _
      cases c <;> first | decide | exact absurd hc (by decide)

/-- C2 witness: the master-only enumerator `Update_Master_Spare_2` lies below
`Update_Tuner_Gr`. -/
theorem C2_tuner_gr_first_master_and_slave_witness :
    sdrplay_api_ReasonForUpdateT.Update_Master_Spare_2.val <
      sdrplay_api_ReasonForUpdateT.Update_Tuner_Gr.val :=
  C2_tuner_gr_first_master_and_slave.1 .Update_Master_Spare_2 rfl

/-! ## C9 : result codes -/

/-- C9: the result codes are exactly the 25 codes the specification lists, each
once; their numeric values in that order are 0, 1, ..., 24; the value map is
injective with image exactly the numbers below 25; and `Success` is the only code
with value 0. -/
theorem C9_result_codes_bijection :
    specResultCodes.length = 25 ∧
    specResultCodes.Nodup ∧
    (∀ c : sdrplay_api_ErrT, c ∈ specResultCodes) ∧
    specResultCodes.map sdrplay_api_ErrT.val = List.range 25 ∧
    Function.Injective sdrplay_api_ErrT.val ∧
    (∀ n : Nat, (∃ c : sdrplay_api_ErrT, c.val = n) ↔ n < 25) ∧
    (∀ c : sdrplay_api_ErrT, c.val = 0 ↔ c = .Success) := by
  refine ⟨rfl, by decide, ?_, by decide, ?_, ?_, ?_⟩
  · intro c
    cases c <;> decide
  · intro c d h
    cases c <;> cases d <;> first | rfl | exact absurd h (by decide)
  · intro n
    constructor
    · rintro ⟨c, rfl⟩
      cases c <;> decide
    · intro hn
      have hmem : n ∈ specResultCodes.map sdrplay_api_ErrT.val := by
        have hr : specResultCodes.map sdrplay_api_ErrT.val = List.range 25 := by decide
        rw [hr]
        exact List.mem_range.2 hn
      obtain ⟨c, -, hc⟩ := List.mem_map.1 hmem
      exact ⟨c, hc⟩
  · intro c
    cases c <;> decide

/-! ## C5 : one bit per named reason -/

theorem testBit_foldl_union {α : Type} (val : α → Nat) (p : α → Bool) (i : Nat) :
    ∀ (l : List α) (acc : Nat),
      (l.foldl (fun acc c => if p c then acc ||| val c else acc) acc).testBit i =
        (acc.testBit i || l.any (fun c => p c && (val c).testBit i)) := by
  intro l
  induction l with
  | nil => intro acc; simp
  | cons x xs ih =>
    intro acc
    rw [List.foldl_cons, ih, List.any_cons]
    cases hp : p x
    · simp
    · simp [Nat.testBit_or, Bool.or_assoc]

theorem testBit_unionWhere {α : Type} (all : List α) (val : α → Nat) (p : α → Bool) (i : Nat) :
    (unionWhere all val p).testBit i = all.any (fun c => p c && (val c).testBit i) := by
  unfold unionWhere
  rw [testBit_foldl_union]
  simp

/-- On a common bit of `val c`, the union of a family with pairwise disjoint values
shows whether `c` was selected. -/
theorem testBit_unionWhere_of_disjoint {α : Type} (all : List α) (val : α → Nat)
    (hdisj : ∀ c d : α, c ≠ d → val c &&& val d = 0) (p : α → Bool)
    (c : α) (hc : c ∈ all) (k : Nat) (hk : (val c).testBit k = true) :
    (unionWhere all val p).testBit k = p c := by
  rw [testBit_unionWhere]
  cases hp : p c
  · rw [List.any_eq_false]
    intro d _ hd
    rw [Bool.and_eq_true] at hd
    by_cases hcd : c = d
    · rw [← hcd, hp] at hd
      exact Bool.noConfusion hd.1
    · have h0 := hdisj c d hcd
      exact (and_ne_zero_iff_common_bit _ _).2 ⟨k, hk, hd.2⟩ h0
  · rw [List.any_eq_true]
    exact ⟨c, hc, by rw [hp, hk]; rfl⟩

theorem unionWhere_injective {α : Type} (all : List α) (val : α → Nat)
    (hdisj : ∀ c d : α, c ≠ d → val c &&& val d = 0) (p q : α → Bool)
    (h : unionWhere all val p = unionWhere all val q)
    (c : α) (hc : c ∈ all) (hnz : val c ≠ 0) : p c = q c := by
  obtain ⟨k, hk⟩ := Nat.ne_zero_implies_bit_true hnz
  rw [← testBit_unionWhere_of_disjoint all val hdisj p c hc k hk,
    ← testBit_unionWhere_of_disjoint all val hdisj q c hc k hk, h]

theorem primary_disjoint (c d : sdrplay_api_ReasonForUpdateT) (h : c ≠ d) :
    c.val &&& d.val = 0 := by
  cases c <;> cases d <;> first | exact absurd rfl h | decide

theorem ext1_disjoint (c d : sdrplay_api_ReasonForUpdateExtension1T) (h : c ≠ d) :
    c.val &&& d.val = 0 := by
  cases c <;> cases d <;> first | exact absurd rfl h | decide

/-- C5: in each reason domain every enumerator other than `None` is a power of two
below 2^32, two distinct enumerators have no bit in common, and the map sending a
set of named reasons (a predicate on the non-`None` enumerators) to the bitwise
union of their values is injective. -/
theorem C5_one_bit_per_named_reason :
    (∀ c : sdrplay_api_ReasonForUpdateT, c ≠ .Update_None →
      ∃ k, k < 32 ∧ c.val = 2 ^ k) ∧
    (∀ c : sdrplay_api_ReasonForUpdateExtension1T, c ≠ .Update_Ext1_None →
      ∃ k, k < 32 ∧ c.val = 2 ^ k) ∧
    (∀ c d : sdrplay_api_ReasonForUpdateT, c ≠ d → c.val &&& d.val = 0) ∧
    (∀ c d : sdrplay_api_ReasonForUpdateExtension1T, c ≠ d → c.val &&& d.val = 0) ∧
    (∀ p q : sdrplay_api_ReasonForUpdateT → Bool,
      unionWhere sdrplay_api_ReasonForUpdateT.all sdrplay_api_ReasonForUpdateT.val p =
        unionWhere sdrplay_api_ReasonForUpdateT.all sdrplay_api_ReasonForUpdateT.val q →
      ∀ c : sdrplay_api_ReasonForUpdateT, c ≠ .Update_None → p c = q c) ∧
    (∀ p q : sdrplay_api_ReasonForUpdateExtension1T → Bool,
      unionWhere sdrplay_api_ReasonForUpdateExtension1T.all
          sdrplay_api_ReasonForUpdateExtension1T.val p =
        unionWhere sdrplay_api_ReasonForUpdateExtension1T.all
          sdrplay_api_ReasonForUpdateExtension1T.val q →
      ∀ c : sdrplay_api_ReasonForUpdateExtension1T, c ≠ .Update_Ext1_None → p c = q c) := by
  refine ⟨?_, ?_, primary_disjoint, ext1_disjoint, ?_, ?_⟩
  · intro c h
    cases c <;> first | exact absurd rfl h | decide
  · intro c h
    cases c <;> first | exact absurd rfl h | decide
  · intro p q h c hc
    refine unionWhere_injective _ _ primary_disjoint p q h c (mem_all_primary c) ?_
    cases c <;> first | exact absurd rfl hc | decide
  · intro p q h c hc
    refine unionWhere_injective _ _ ext1_disjoint p q h c (mem_all_ext1 c) ?_
    cases c <;> first | exact absurd rfl hc | decide

/-- C5 witness: `Update_Tuner_Gr` is the single bit 15, and it shares no bit with
`Update_Tuner_Frf`. -/
theorem C5_one_bit_per_named_reason_witness :
    (∃ k, k < 32 ∧ sdrplay_api_ReasonForUpdateT.Update_Tuner_Gr.val = 2 ^ k) ∧
    sdrplay_api_ReasonForUpdateT.Update_Tuner_Gr.val &&&
      sdrplay_api_ReasonForUpdateT.Update_Tuner_Frf.val = 0 :=
  ⟨C5_one_bit_per_named_reason.1 .Update_Tuner_Gr (by decide),
   C5_one_bit_per_named_reason.2.2.1 .Update_Tuner_Gr .Update_Tuner_Frf (by decide)⟩

/-! ## C4 : accumulation is bitwise union -/

theorem union_comm (a b : ReasonSet) : a.union b = b.union a := by
  simp only [ReasonSet.union, Nat.or_comm a.primary, Nat.or_comm a.ext1]

theorem union_assoc (a b c : ReasonSet) : (a.union b).union c = a.union (b.union c) := by
  simp only [ReasonSet.union, Nat.or_assoc]

theorem union_self (a : ReasonSet) : a.union a = a := by
  simp only [ReasonSet.union, Nat.or_self]

theorem union_none (a : ReasonSet) : a.union ReasonSet.none = a := by
  cases a
  simp [ReasonSet.union, ReasonSet.none, sdrplay_api_ReasonForUpdateT.val,
    sdrplay_api_ReasonForUpdateExtension1T.val]

theorem none_union (a : ReasonSet) : ReasonSet.none.union a = a := by
  rw [union_comm, union_none]

theorem union_right_comm (a b c : ReasonSet) : (a.union b).union c = (a.union c).union b := by
  rw [union_assoc, union_comm b c, ← union_assoc]

theorem accumulateAll_perm {fs gs : List Field} (h : fs.Perm gs) :
    ∀ acc : ReasonSet, accumulateAll acc fs = accumulateAll acc gs := by
  induction h with
  | nil => intro acc; rfl
  | cons x _ ih =>
    intro acc
    simp only [accumulateAll]
    cases accumulate acc x with
    | none => rfl
    | some a => exact ih a
  | swap x y l =>
    intro acc
    simp only [accumulateAll, accumulate]
    cases encode x <;> cases encode y <;> simp [union_right_comm]
  | trans _ _ ih1 ih2 =>
    intro acc
    rw [ih1, ih2]

theorem primary_pow2 (c : sdrplay_api_ReasonForUpdateT) (h : c ≠ .Update_None) :
    ∃ k, k < 32 ∧ c.val = 2 ^ k := by
  cases c <;> first | exact absurd rfl h | decide

theorem ext1_pow2 (c : sdrplay_api_ReasonForUpdateExtension1T) (h : c ≠ .Update_Ext1_None) :
    ∃ k, k < 32 ∧ c.val = 2 ^ k := by
  cases c <;> first | exact absurd rfl h | decide

theorem reasonOf_not_none (f : Field) (a : NamedReason) (h : reasonOf f = some a) :
    a.isNone = false := by
  rcases f with d | x
  · cases d <;> simp [reasonOf] at h <;> subst h <;> rfl
  · cases x <;> simp [reasonOf] at h <;> subst h <;> rfl

/-- A named reason other than `None` occupies exactly one position (domain, bit
index below 32) of a reason set. -/
theorem toSet_single_position (a : NamedReason) (ha : a.isNone = false) :
    ∃ pos : Bool × Nat, pos.2 < 32 ∧
      ∀ (d : Bool) (i : Nat), a.toSet.testBit d i = true ↔ (d, i) = pos := by
  rcases a with c | c
  · have hc : c ≠ .Update_None := by
      rintro rfl
      exact Bool.noConfusion ha
    obtain ⟨k, hk, hv⟩ := primary_pow2 c hc
    refine ⟨(false, k), hk, ?_⟩
    intro d i
    cases d
    · simp [ReasonSet.testBit, NamedReason.toSet, hv, Nat.testBit_two_pow, eq_comm]
    · simp [ReasonSet.testBit, NamedReason.toSet, sdrplay_api_ReasonForUpdateExtension1T.val]
  · have hc : c ≠ .Update_Ext1_None := by
      rintro rfl
      exact Bool.noConfusion ha
    obtain ⟨k, hk, hv⟩ := ext1_pow2 c hc
    refine ⟨(true, k), hk, ?_⟩
    intro d i
    cases d
    · simp [ReasonSet.testBit, NamedReason.toSet, sdrplay_api_ReasonForUpdateT.val]
    · simp [ReasonSet.testBit, NamedReason.toSet, hv, Nat.testBit_two_pow, eq_comm]

theorem testBit_union (a b : ReasonSet) (d : Bool) (i : Nat) :
    (a.union b).testBit d i = (a.testBit d i || b.testBit d i) := by
  cases d <;> simp [ReasonSet.testBit, ReasonSet.union, Nat.testBit_or]

theorem reasonSet_ext (a b : ReasonSet) (h : ∀ d i, a.testBit d i = b.testBit d i) : a = b := by
  rcases a with ⟨ap, ae⟩
  rcases b with ⟨bp, be⟩
  have hp : ap = bp := Nat.eq_of_testBit_eq (fun i => by simpa [ReasonSet.testBit] using h false i)
  have he : ae = be := Nat.eq_of_testBit_eq (fun i => by simpa [ReasonSet.testBit] using h true i)
  rw [hp, he]

theorem toSet_injective (a b : NamedReason) (ha : a.isNone = false) (h : a.toSet = b.toSet) :
    a = b := by
  rcases a with c | c <;> rcases b with e | e
  · have hv : c.val = e.val := by simpa [NamedReason.toSet] using congrArg ReasonSet.primary h
    by_contra hne
    have hce : c ≠ e := fun hh => hne (by rw [hh])
    have h0 := primary_disjoint c e hce
    rw [← hv, Nat.and_self] at h0
    cases c <;> first | exact Bool.noConfusion ha | exact absurd h0 (by decide)
  · have hv : c.val = 0 := by simpa [NamedReason.toSet] using congrArg ReasonSet.primary h
    cases c <;> first | exact Bool.noConfusion ha | exact absurd hv (by decide)
  · have hv : c.val = 0 := by simpa [NamedReason.toSet] using congrArg ReasonSet.ext1 h
    cases c <;> first | exact Bool.noConfusion ha | exact absurd hv (by decide)
  · have hv : c.val = e.val := by simpa [NamedReason.toSet] using congrArg ReasonSet.ext1 h
    by_contra hne
    have hce : c ≠ e := fun hh => hne (by rw [hh])
    have h0 := ext1_disjoint c e hce
    rw [← hv, Nat.and_self] at h0
    cases c <;> first | exact Bool.noConfusion ha | exact absurd h0 (by decide)

theorem accumulateAll_pair (acc : ReasonSet) (f g : Field) (rf rg : ReasonSet)
    (hf : encode f = some rf) (hg : encode g = some rg) :
    accumulateAll acc [f, g] = some ((acc.union rf).union rg) := by
  simp [accumulateAll, accumulate, hf, hg]

/-- C4: accumulating reason encodings is bitwise union in each domain. The union is
commutative, associative and idempotent with `(Update_None, Update_Ext1_None)` as
identity; encoding two mapped fields in either order gives the pair of bitwise ORs of
their encodings; any reordering of a sequence of mutations accumulates to the same
set; encoding a field twice is the same as once; and for two fields with different
reason bits the result has exactly two positions set, the bit of each field. -/
theorem C4_accumulate_is_union :
    (∀ a b : ReasonSet, a.union b = b.union a) ∧
    (∀ a b c : ReasonSet, (a.union b).union c = a.union (b.union c)) ∧
    (∀ a : ReasonSet, a.union a = a) ∧
    (∀ a : ReasonSet, a.union ReasonSet.none = a ∧ ReasonSet.none.union a = a) ∧
    (∀ (f g : Field) (rf rg : ReasonSet), encode f = some rf → encode g = some rg →
      accumulateAll ReasonSet.none [f, g] =
        some ⟨rf.primary ||| rg.primary, rf.ext1 ||| rg.ext1⟩ ∧
      accumulateAll ReasonSet.none [g, f] = accumulateAll ReasonSet.none [f, g]) ∧
    (∀ (acc : ReasonSet) (fs gs : List Field), fs.Perm gs →
      accumulateAll acc fs = accumulateAll acc gs) ∧
    (∀ f : Field, accumulateAll ReasonSet.none [f, f] = accumulateAll ReasonSet.none [f]) ∧
    (∀ (f g : Field) (a b : NamedReason), reasonOf f = some a → reasonOf g = some b → a ≠ b →
      ∃ (r : ReasonSet) (pa pb : Bool × Nat),
        accumulateAll ReasonSet.none [f, g] = some r ∧ pa ≠ pb ∧
        (∀ d i, a.toSet.testBit d i = true ↔ (d, i) = pa) ∧
        (∀ d i, b.toSet.testBit d i = true ↔ (d, i) = pb) ∧
        (∀ d i, r.testBit d i = true ↔ (d, i) = pa ∨ (d, i) = pb)) := by
  refine ⟨union_comm, union_assoc, union_self, fun a => ⟨union_none a, none_union a⟩,
    ?_, fun acc fs gs h => accumulateAll_perm h acc, ?_, ?_⟩
  · intro f g rf rg hf hg
    constructor
    · rw [accumulateAll_pair _ f g rf rg hf hg, none_union]
      rfl
    · exact accumulateAll_perm (List.Perm.swap f g []) ReasonSet.none
  · intro f
    cases hf : encode f with
    | none => simp [accumulateAll, accumulate, hf]
    | some rf =>
      rw [accumulateAll_pair _ f f rf rf hf hf, union_assoc, union_self]
      simp [accumulateAll, accumulate, hf]
  · intro f g a b hf hg hab
    have ha := reasonOf_not_none f a hf
    have hb := reasonOf_not_none g b hg
    obtain ⟨pa, -, hpa⟩ := toSet_single_position a ha
    obtain ⟨pb, -, hpb⟩ := toSet_single_position b hb
    refine ⟨a.toSet.union b.toSet, pa, pb, ?_, ?_, hpa, hpb, ?_⟩
    · rw [accumulateAll_pair _ f g a.toSet b.toSet (by simp [encode, hf]) (by simp [encode, hg]),
        none_union]
    · intro hp
      apply hab
      apply toSet_injective a b ha
      apply reasonSet_ext
      intro d i
      rw [Bool.eq_iff_iff, hpa, hpb, hp]
    · intro d i
      rw [testBit_union, Bool.or_eq_true, hpa, hpb]

/-- C4 witness: staging the gain reduction and then the sample rate accumulates to
the reason pair `(0x8001, 0)`, the same as in the opposite order. -/
theorem C4_accumulate_is_union_witness :
    accumulateAll ReasonSet.none [.rx .tunerParams_gain_gRdB, .dev .fsFreq_fsHz] =
      some ⟨0x8000 ||| 0x0001, 0 ||| 0⟩ ∧
    accumulateAll ReasonSet.none [.dev .fsFreq_fsHz, .rx .tunerParams_gain_gRdB] =
      accumulateAll ReasonSet.none [.rx .tunerParams_gain_gRdB, .dev .fsFreq_fsHz] :=
  C4_accumulate_is_union.2.2.2.2.1 (.rx .tunerParams_gain_gRdB) (.dev .fsFreq_fsHz)
    ⟨0x8000, 0⟩ ⟨0x0001, 0⟩ rfl rfl

/-! ## C3 : fixed precedence order -/

/-- C6: for every stored gain block (its `minGr` being the mode) and every integer
`gRdB`, `setGain` succeeds exactly when `floor(mode) <= gRdB <= MAX_BB_GR`, the floor
being 0 for Extended and 20 for Normal and `MAX_BB_GR` being 59; in range the value is
stored and nothing else changes; out of range `setGain` fails with `InvalidParam` and
the stored gain block is unchanged. -/
theorem C6_setGain_range (g : sdrplay_api_GainT) (gRdB : Int) :
    ((setGain g gRdB).1 = .Success ↔ g.minGr.val ≤ gRdB ∧ gRdB ≤ 59) ∧
    (g.minGr.val ≤ gRdB ∧ gRdB ≤ 59 →
      setGain g gRdB = (.Success, { g with gRdB := gRdB })) ∧
    (¬ (g.minGr.val ≤ gRdB ∧ gRdB ≤ 59) →
      setGain g gRdB = (.InvalidParam, g) ∧ (setGain g gRdB).1 ≠ .Success ∧
      (setGain g gRdB).2.gRdB = g.gRdB ∧ (setGain g gRdB).2.LNAstate = g.LNAstate ∧
      (setGain g gRdB).2.minGr = g.minGr) ∧
    sdrplay_api_MinGainReductionT.EXTENDED_MIN_GR.val = 0 ∧
    sdrplay_api_MinGainReductionT.NORMAL_MIN_GR.val = 20 ∧
    MAX_BB_GR = 59 := by
  have hmax : MAX_BB_GR = 59 := rfl
  refine ⟨?_, ?_, ?_, rfl, rfl, rfl⟩
  · by_cases h : g.minGr.val ≤ gRdB ∧ gRdB ≤ 59
    · simp [setGain, hmax, h]
    · simp [setGain, hmax, h]
  · intro h
    simp [setGain, hmax, h]
  · intro h
    simp [setGain, hmax, h]

/-- C6 witness: under Normal (floor 20) a gain reduction of 10 is rejected with the
stored block unchanged, and 40 is accepted. -/
theorem C6_setGain_range_witness :
    (setGain exampleGain 10 = (.InvalidParam, exampleGain) ∧
      (setGain exampleGain 10).1 ≠ .Success ∧
      (setGain exampleGain 10).2.gRdB = exampleGain.gRdB ∧
      (setGain exampleGain 10).2.LNAstate = exampleGain.LNAstate ∧
      (setGain exampleGain 10).2.minGr = exampleGain.minGr) ∧
    setGain exampleGain 40 = (.Success, { exampleGain with gRdB := 40 }) :=
  ⟨(C6_setGain_range exampleGain 10).2.2.1 (by decide),
   (C6_setGain_range exampleGain 40).2.1 (by decide)⟩

/-! ## C7 : failures leave the staged tree -/

/-- C7: for every transport, session, tuner and reason set, if dispatch returns any
result other than `Success`, the staged parameter tree after the call (device-level
block and both per-channel blocks) equals the tree before the call. -/
theorem C7_failure_leaves_staged_tree (tr : Transport) (s : Session)
    (tuner : sdrplay_api_TunerSelectT) (r : ReasonSet)
    (h : (dispatch tr s tuner r).1 ≠ .Success) :
    (dispatch tr s tuner r).2.params = s.params ∧
    (dispatch tr s tuner r).2.params.devParams = s.params.devParams ∧
    (dispatch tr s tuner r).2.params.rxChannelA = s.params.rxChannelA ∧
    (dispatch tr s tuner r).2.params.rxChannelB = s.params.rxChannelB := by
  have key : (dispatch tr s tuner r).2.params = s.params := by
    by_cases hmode : s.device.rspDuoMode = .RspDuoMode_Slave ∧ r.containsMasterOnly = true
    · rw [dispatch_rejected tr s tuner r hmode.1 hmode.2]
    · by_cases hvalid : s.device.valid = 0
      · rw [dispatch_invalid tr s tuner r hmode hvalid]
      · rw [dispatch_accepted tr s tuner r hmode hvalid] at h ⊢
        simp only at h
        simp only [if_neg h]
  rw [key]
  exact ⟨rfl, rfl, rfl, rfl⟩

/-- C7 witness: a transport that fails with `HwError` and hands back an emptied tree
leaves the staged tree of the session as it was. -/
theorem C7_failure_leaves_staged_tree_witness :
    (dispatch failingTransport singleSession .Tuner_A ⟨0x8000, 0⟩).1 = .HwError ∧
    (dispatch failingTransport singleSession .Tuner_A ⟨0x8000, 0⟩).2.params = stagedParams :=
  ⟨by decide,
   (C7_failure_leaves_staged_tree failingTransport singleSession .Tuner_A ⟨0x8000, 0⟩
     (by decide)).1⟩

/-! ## C10 : master-only bits and the device-level block -/

theorem mem_all_field (f : Field) : f ∈ Field.all := by
  rcases f with d | x
  · cases d <;> decide
  · cases x <;> decide

theorem mem_fieldsNamedBy (b : NamedReason) (f : Field) :
    f ∈ fieldsNamedBy b ↔ reasonOf f = some b := by
  simp [fieldsNamedBy, List.mem_filter, mem_all_field]

/-- C10, the claim as stated, fails at `Update_Rsp1a_BiasTControl`: it is defined in
the master-only section and is rejected for a Slave, yet the one field it names,
`rsp1aTunerParams.biasTEnable`, belongs to the per-channel block
`sdrplay_api_RxChannelParamsT` and not to the device-level block. So neither does
master-only imply a device-level field, nor does a per-channel field imply the
master-and-slave section. -/
theorem C10_counterexample_rsp1a_biasT :
    (NamedReason.primary .Update_Rsp1a_BiasTControl).isNone = false ∧
    (NamedReason.primary .Update_Rsp1a_BiasTControl).isSpare = false ∧
    (NamedReason.primary .Update_Rsp1a_BiasTControl).sect = .masterOnly ∧
    fieldsNamedBy (.primary .Update_Rsp1a_BiasTControl) = [.rx .rsp1aTunerParams_biasTEnable] ∧
    (Field.rx .rsp1aTunerParams_biasTEnable).isPerChannel = true ∧
    (Field.rx .rsp1aTunerParams_biasTEnable).isDeviceLevel = false ∧
    dispatch okTransport slaveSession .Tuner_B
      (NamedReason.primary .Update_Rsp1a_BiasTControl).toSet = (.InvalidMode, slaveSession) ∧
    ¬ (∀ b : NamedReason, b.isNone = false → b.isSpare = false →
        (b.sect = .masterOnly ↔ ∃ f ∈ fieldsNamedBy b, f.isDeviceLevel = true)) ∧
    ¬ (∀ (f : Field) (b : NamedReason), reasonOf f = some b → f.isPerChannel = true →
        b.sect = .masterAndSlave) := by
  refine ⟨rfl, rfl, rfl, by decide, rfl, rfl, by decide, ?_, ?_⟩
  · intro h
    have h1 := (h (.primary .Update_Rsp1a_BiasTControl) rfl rfl).1 rfl
    revert h1
    decide
  · intro h
    have h1 := h (.rx .rsp1aTunerParams_biasTEnable) (.primary .Update_Rsp1a_BiasTControl)
      rfl rfl
    revert h1
    decide

/-- C10, amended: every named reason whose field belongs to the device-level block
`sdrplay_api_DevParamsT` is master-only; every master-and-slave reason that names a
field names one of the per-channel block `sdrplay_api_RxChannelParamsT` and is not
rejected for a Slave; a reason naming a per-channel field is in the master-and-slave
section unless it is one of the six per-tuner reasons of the single-tuner variants
(`Update_Rsp1a_BiasTControl`, `Update_Rsp2_BiasTControl`, `Update_Rsp2_AmPortSelect`,
`Update_Rsp2_AntennaControl`, `Update_Rsp2_RfNotchControl`, `Update_RspDx_HdrBw`),
which are master-only although all their fields are per-channel; for every other
named reason (spares excluded) master-only is equivalent to naming a device-level
field. -/
theorem C10_device_level_fields_are_master_only :
    (∀ (f : Field) (b : NamedReason), reasonOf f = some b → f.isDeviceLevel = true →
      b.sect = .masterOnly) ∧
    (∀ (f : Field) (b : NamedReason), reasonOf f = some b → b.sect = .masterAndSlave →
      f.isPerChannel = true) ∧
    (∀ (f : Field) (b : NamedReason), reasonOf f = some b → f.isPerChannel = true →
      b.sect = .masterAndSlave ∨ b ∈ perChannelMasterOnly) ∧
    (∀ b ∈ perChannelMasterOnly, b.sect = .masterOnly ∧ fieldsNamedBy b ≠ [] ∧
      ∀ f ∈ fieldsNamedBy b, f.isPerChannel = true) ∧
    (∀ b : NamedReason, b.isNone = false → b.isSpare = false → b ∉ perChannelMasterOnly →
      (b.sect = .masterOnly ↔ ∃ f ∈ fieldsNamedBy b, f.isDeviceLevel = true)) ∧
    (∀ b : NamedReason, b.sect = .masterAndSlave → b.toSet.containsMasterOnly = false) ∧
    (∀ b : NamedReason, b.sect = .masterOnly → b.toSet.containsMasterOnly = true) := by
  refine ⟨?_, ?_, ?_, by decide, ?_, ?_, ?_⟩
  · intro f b hf hd
    rcases f with d | x
    · cases d <;> simp [reasonOf] at hf <;> subst hf <;> rfl
    · exact Bool.noConfusion hd
  · intro f b hf hb
    rcases f with d | x
    · cases d <;> simp [reasonOf] at hf <;> subst hf <;> exact absurd hb (by decide)
    · rfl
  · intro f b hf hx
    rcases f with d | x
    · exact Bool.noConfusion hx
    · cases x <;> simp [reasonOf] at hf <;> subst hf <;> decide
  · intro b hn hs hx
    rcases b with c | c <;> cases c <;>
      first
        | exact Bool.noConfusion hn
        | exact Bool.noConfusion hs
        | exact absurd hx (by decide)
        | decide
  · intro b hb
    rcases b with c | c <;> cases c <;> first | exact absurd hb (by decide) | decide
  · intro b hb
    rcases b with c | c <;> cases c <;> first | exact absurd hb (by decide) | decide

/-- C10 witness: the sample-rate field `fsFreq.fsHz` is device-level, so its reason
`Update_Dev_Fs` is master-only. -/
theorem C10_device_level_fields_are_master_only_witness :
    (NamedReason.primary .Update_Dev_Fs).sect = .masterOnly :=
  C10_device_level_fields_are_master_only.1 (.dev .fsFreq_fsHz) (.primary .Update_Dev_Fs)
    rfl rfl

/-! ## C11 : DC offset timing formula -/

/-- C11: under the formula documented on `sdrplay_api_DcOffsetTunerT`, the time
`(72 * 3 * t) / 24e6` seconds is exactly `9 * t` microseconds for every integer `t`,
which is also the integer quotient `72 * 3 * t / 24`; the default `trackTime = 1`
gives exactly 9 microseconds and the default `refreshRateTime = 2048` gives exactly
18432 microseconds. -/
theorem C11_dc_offset_time_micros (t : Int) :
    dcOffsetTimeMicros t = 9 * (t : ℚ) ∧
    dcOffsetTimeSeconds t = 9 * (t : ℚ) / 1000000 ∧
    (72 * 3 * t) / 24 = 9 * t ∧
    (72 * 3 * t) % 24 = 0 ∧
    defaultDcOffsetTuner.trackTime = 1 ∧
    defaultDcOffsetTuner.refreshRateTime = 2048 ∧
    dcOffsetTimeMicros defaultDcOffsetTuner.trackTime = 9 ∧
    dcOffsetTimeMicros defaultDcOffsetTuner.refreshRateTime = 18432 := by
  have hmic : ∀ u : Int, dcOffsetTimeMicros u = 9 * (u : ℚ) := by
    intro u
    unfold dcOffsetTimeMicros dcOffsetTimeSeconds
    ring
  refine ⟨hmic t, ?_, ?_, ?_, rfl, rfl, ?_, ?_⟩
  · unfold dcOffsetTimeSeconds
    ring
  · omega
  · omega
  · rw [hmic]
    norm_num [defaultDcOffsetTuner]
  · rw [hmic]
    norm_num [defaultDcOffsetTuner]

/-! ## C14 : variant ids and the 8-bit hwVer member -/

/-- C14: the five variant ids are 1, 255, 2, 3 and 4; they are pairwise distinct and
each is at most 255, so storing an id in the 8-bit `hwVer` member (reduction modulo
2^8) and reading it back returns the same id, and the stored `hwVer` determines the
variant. -/
theorem C14_variant_ids_fit_hwVer :
    (SDRPLAY_RSP1_ID = 1 ∧ SDRPLAY_RSP1A_ID = 255 ∧ SDRPLAY_RSP2_ID = 2 ∧
      SDRPLAY_RSPduo_ID = 3 ∧ SDRPLAY_RSPdx_ID = 4) ∧
    (Variant.all.map Variant.id).Nodup ∧
    (∀ v : Variant, v ∈ Variant.all) ∧
    (∀ a b : Variant, a.id = b.id → a = b) ∧
    (∀ v : Variant, v.id ≤ 255 ∧ v.id < 2 ^ 8) ∧
    (∀ v : Variant, v.id % 2 ^ 8 = v.id) ∧
    (∀ (d : sdrplay_api_DeviceT) (v : Variant), (setHwVer d v.id).hwVer = v.id) ∧
    (∀ (d e : sdrplay_api_DeviceT) (a b : Variant),
      (setHwVer d a.id).hwVer = (setHwVer e b.id).hwVer → a = b) ∧
    (∀ (d : sdrplay_api_DeviceT) (v : Variant),
      variantOfHwVer (setHwVer d v.id).hwVer = some v) := by
  have hstore : ∀ (d : sdrplay_api_DeviceT) (v : Variant), (setHwVer d v.id).hwVer = v.id := by
    intro d v
    cases v <;> rfl
  have hinj : ∀ a b : Variant, a.id = b.id → a = b := by
    intro a b h
    cases a <;> cases b <;> first | rfl | exact absurd h (by decide)
  refine ⟨⟨rfl, rfl, rfl, rfl, rfl⟩, by decide, ?_, hinj, ?_, ?_, hstore, ?_, ?_⟩
  · intro v
    cases v <;> decide
  · intro v
    cases v <;> decide
  · intro v
    cases v <;> rfl
  · intro d e a b h
    rw [hstore, hstore] at h
    exact hinj a b h
  · intro d v
    rw [hstore]
    cases v <;> rfl

/-- C14 witness: the RSP1A id 255 stored in `hwVer` is read back unchanged and
identifies the RSP1A, and two devices holding the stored RSPdx id are of the same
variant. -/
theorem C14_variant_ids_fit_hwVer_witness :
    (setHwVer slaveDevice Variant.RSP1A.id).hwVer = Variant.RSP1A.id ∧
    variantOfHwVer (setHwVer slaveDevice Variant.RSP1A.id).hwVer = some .RSP1A ∧
    Variant.RSPdx = Variant.RSPdx :=
  ⟨C14_variant_ids_fit_hwVer.2.2.2.2.2.2.1 slaveDevice .RSP1A,
   C14_variant_ids_fit_hwVer.2.2.2.2.2.2.2.2 slaveDevice .RSP1A,
   C14_variant_ids_fit_hwVer.2.2.2.2.2.2.2.1 slaveDevice singleDevice .RSPdx .RSPdx
     (by decide)⟩

/-! ## C13 : LNA state counts -/

/-- C13: for each variant every band- or port-specific LNA-state count is positive
and does not exceed the general count of that variant (RSP1A 7, 9 against 10; RSP2
5, 6 against 9; RSPduo 5, 7, 9 against 10; RSPdx 19, 20, 27, 21, 19, 26 against 28).
So the default `LNAstate = 0` is a valid index for every general and band count, and
an index valid for a band count is valid for the general count. -/
theorem C13_band_lna_states_within_general :
    (generalLnaStates .RSP1A = some 10 ∧ bandLnaStates .RSP1A = [7, 9]) ∧
    (generalLnaStates .RSP2 = some 9 ∧ bandLnaStates .RSP2 = [5, 6]) ∧
    (generalLnaStates .RSPduo = some 10 ∧ bandLnaStates .RSPduo = [5, 7, 9]) ∧
    (generalLnaStates .RSPdx = some 28 ∧ bandLnaStates .RSPdx = [19, 20, 27, 21, 19, 26]) ∧
    (∀ (v : Variant) (g n : Nat), generalLnaStates v = some g → n ∈ bandLnaStates v →
      0 < n ∧ n ≤ g ∧
      validLnaState g 0 = true ∧ validLnaState n 0 = true ∧
      ∀ i : Nat, validLnaState n i = true → validLnaState g i = true) := by
  refine ⟨⟨rfl, rfl⟩, ⟨rfl, rfl⟩, ⟨rfl, rfl⟩, ⟨rfl, rfl⟩, ?_⟩
  intro v g n hg hn
  have hb : 0 < n ∧ n ≤ g := by
    cases v
    · exact Option.noConfusion hg
    all_goals
      cases Option.some.inj hg
      revert n
      decide
  refine ⟨hb.1, hb.2, ?_, ?_, ?_⟩
  · exact decide_eq_true (Nat.lt_of_lt_of_le hb.1 hb.2)
  · exact decide_eq_true hb.1
  · intro i hi
    exact decide_eq_true (Nat.lt_of_lt_of_le (of_decide_eq_true hi) hb.2)

/-- C13 witness: the RSPdx L-band count 19 is positive and within the general count
28, and index 18, valid in L-band, is valid in the general range. -/
theorem C13_band_lna_states_within_general_witness :
    0 < RSPDX_NUM_LNA_STATES_LBAND ∧ RSPDX_NUM_LNA_STATES_LBAND ≤ RSPDX_NUM_LNA_STATES ∧
    validLnaState RSPDX_NUM_LNA_STATES 18 = true :=
  ⟨(C13_band_lna_states_within_general.2.2.2.2 .RSPdx RSPDX_NUM_LNA_STATES
      RSPDX_NUM_LNA_STATES_LBAND rfl (by decide)).1,
   (C13_band_lna_states_within_general.2.2.2.2 .RSPdx RSPDX_NUM_LNA_STATES
      RSPDX_NUM_LNA_STATES_LBAND rfl (by decide)).2.1,
   (C13_band_lna_states_within_general.2.2.2.2 .RSPdx RSPDX_NUM_LNA_STATES
      RSPDX_NUM_LNA_STATES_LBAND rfl (by decide)).2.2.2.2 18 (by decide)⟩

/-! ## C12 : the primary reasons partition the 32-bit word -/

theorem foldl_union_lt_two_pow {α : Type} (val : α → Nat) (p : α → Bool) (n : Nat) :
    ∀ (l : List α) (acc : Nat), acc < 2 ^ n → (∀ c, c ∈ l → val c < 2 ^ n) →
      l.foldl (fun acc c => if p c then acc ||| val c else acc) acc < 2 ^ n := by
  intro l
  induction l with
  | nil => intro acc hacc _; exact hacc
  | cons x xs ih =>
    intro acc hacc hl
    rw [List.foldl_cons]
    apply ih
    · cases p x
      · exact hacc
      · exact Nat.or_lt_two_pow hacc (hl x (List.mem_cons_self x xs))
    · intro c hc
      exact hl c (List.mem_cons_of_mem x hc)

theorem unionWhere_lt_two_pow {α : Type} (all : List α) (val : α → Nat) (p : α → Bool)
    (n : Nat) (h : ∀ c, c ∈ all → val c < 2 ^ n) : unionWhere all val p < 2 ^ n :=
  foldl_union_lt_two_pow val p n all 0 (Nat.pos_pow_of_pos n (by decide)) h

theorem primary_val_lt (c : sdrplay_api_ReasonForUpdateT) : c.val < 2 ^ 32 := by
  cases c <;> decide

/-- C12: the non-`None` enumerators of the primary reason domain partition the 32-bit
word: there are 32 of them, 15 master-only (the two spares included) and 17
master-and-slave, their union is `0xFFFFFFFF`, and every bit 0..31 is the value of
exactly one of them; every union of primary reasons is below 2^32; the highest,
`Update_RspDuo_RfDabNotchControl = 0x80000000 = 2^31`, exceeds the signed 32-bit
maximum 2147483647. The six extension-1 enumerators have union `0x3F`, bits 0..5. -/
theorem C12_primary_reasons_partition_word :
    unionWhere sdrplay_api_ReasonForUpdateT.all sdrplay_api_ReasonForUpdateT.val
      (fun c => decide (c ≠ .Update_None)) = 0xFFFFFFFF ∧
    sdrplay_api_ReasonForUpdateT.all.Nodup ∧
    (sdrplay_api_ReasonForUpdateT.all.filter (fun c => decide (c ≠ .Update_None))).length
      = 32 ∧
    (sdrplay_api_ReasonForUpdateT.all.filter (fun c => decide (c.sect = .masterOnly))).length
      = 15 ∧
    (sdrplay_api_ReasonForUpdateT.all.filter
      (fun c => decide (c.sect = .masterAndSlave))).length = 17 ∧
    (sdrplay_api_ReasonForUpdateT.Update_Master_Spare_1.sect = .masterOnly ∧
      sdrplay_api_ReasonForUpdateT.Update_Master_Spare_2.sect = .masterOnly) ∧
    masterOnlyMask ||| masterAndSlaveMask = 0xFFFFFFFF ∧
    masterOnlyMask &&& masterAndSlaveMask = 0 ∧
    (∀ i : Nat, i < 32 → ∃ c : sdrplay_api_ReasonForUpdateT,
      c.val = 2 ^ i ∧ ∀ d : sdrplay_api_ReasonForUpdateT, d.val = 2 ^ i → d = c) ∧
    (∀ p : sdrplay_api_ReasonForUpdateT → Bool,
      unionWhere sdrplay_api_ReasonForUpdateT.all sdrplay_api_ReasonForUpdateT.val p
        < 2 ^ 32) ∧
    (sdrplay_api_ReasonForUpdateT.Update_RspDuo_RfDabNotchControl.val = 0x80000000 ∧
      sdrplay_api_ReasonForUpdateT.Update_RspDuo_RfDabNotchControl.val = 2 ^ 31 ∧
      2147483647 < sdrplay_api_ReasonForUpdateT.Update_RspDuo_RfDabNotchControl.val ∧
      2 ^ 31 - 1 = 2147483647 ∧
      ∀ c : sdrplay_api_ReasonForUpdateT,
        c.val ≤ sdrplay_api_ReasonForUpdateT.Update_RspDuo_RfDabNotchControl.val) ∧
    (unionWhere sdrplay_api_ReasonForUpdateExtension1T.all
        sdrplay_api_ReasonForUpdateExtension1T.val (fun c => decide (c ≠ .Update_Ext1_None))
        = 0x3F ∧
      (sdrplay_api_ReasonForUpdateExtension1T.all.filter
        (fun c => decide (c ≠ .Update_Ext1_None))).length = 6 ∧
      ∀ i : Nat, (0x3F : Nat).testBit i = true ↔ i < 6) := by
  refine ⟨by decide, by decide, by decide, by decide, by decide, ⟨rfl, rfl⟩, by decide,
    by decide, ?_, ?_, ⟨rfl, by decide, by decide, by decide, ?_⟩, by decide, by decide, ?_⟩
  · intro i hi
    have hex : ∃ c, c ∈ sdrplay_api_ReasonForUpdateT.all ∧ c.val = 2 ^ i := by
      interval_cases i <;> decide
    obtain ⟨c, -, hc⟩ := hex
    refine ⟨c, hc, ?_⟩
    intro d hd
    by_contra hne
    have h0 := primary_disjoint d c hne
    rw [hd, hc, Nat.and_self] at h0
    exact absurd h0 (Nat.pos_iff_ne_zero.1 (Nat.pos_pow_of_pos i (by decide)))
  · intro p
    exact unionWhere_lt_two_pow _ _ p 32 (fun c _ => primary_val_lt c)
  · intro c
    cases c <;> decide
  · intro i
    have h : (0x3F : Nat) = 2 ^ 6 - 1 := by decide
    rw [h, Nat.testBit_two_pow_sub_one]
    exact decide_eq_true_iff

/-- C12 witness: bit 15 is the value of exactly one primary enumerator. -/
theorem C12_primary_reasons_partition_word_witness :
    ∃ c : sdrplay_api_ReasonForUpdateT,
      c.val = 2 ^ 15 ∧ ∀ d : sdrplay_api_ReasonForUpdateT, d.val = 2 ^ 15 → d = c :=
  C12_primary_reasons_partition_word.2.2.2.2.2.2.2.2.1 15 (by decide)

end Sdrplay
